import Mathlib

/-
Verification development for the gamma-swap pricing core.

Rust machine integers are embedded as `Nat` together with explicit
checked-arithmetic helpers that return `none` exactly where the Rust
`checked_*` operations return `None` (overflow past the integer width, or
division by zero).  Fallible Rust functions returning `Result<T, GammaError>`
become `Except GammaError T`.  `rust_decimal::Decimal` values are embedded as
`ℚ`; the natural-logarithm routine of that external crate is kept abstract as
a function parameter `lnf : ℚ → ℚ` so that every statement quantifies over
the possible behaviours of the logarithm.
-/

/-- Error taxonomy of the program (`GammaError`), restricted to the variants
reached by the embedded functions. -/
inductive GammaError where
  | mathOverflow
  | mathError
  | invalidFee
deriving DecidableEq, Repr

/-- 2^64, the modulus of `u64`. -/
def U64MOD : Nat := 18446744073709551616

/-- 2^128, the modulus of `u128`. -/
def U128MOD : Nat := 340282366920938463463374607431768211456

/-- `u128::MAX`. -/
def U128MAXVAL : Nat := U128MOD - 1

/-- `u64::MAX`. -/
def U64MAXVAL : Nat := U64MOD - 1

/-- `u64::checked_add`. -/
def cadd64 (a b : Nat) : Option Nat :=
  if a + b < U64MOD then some (a + b) else none

/-- `u64::checked_mul`. -/
def cmul64 (a b : Nat) : Option Nat :=
  if a * b < U64MOD then some (a * b) else none

/-- `u64::saturating_mul`. -/
def satMul64 (a b : Nat) : Nat :=
  min (a * b) U64MAXVAL

/-- `u128::checked_add`. -/
def cadd128 (a b : Nat) : Option Nat :=
  if a + b < U128MOD then some (a + b) else none

/-- `u128::checked_mul`. -/
def cmul128 (a b : Nat) : Option Nat :=
  if a * b < U128MOD then some (a * b) else none

/-- `checked_sub` (width independent: fails exactly on underflow). -/
def csub (a b : Nat) : Option Nat :=
  if b ≤ a then some (a - b) else none

/-- `checked_div` (fails exactly on division by zero). -/
def cdiv (a b : Nat) : Option Nat :=
  if b = 0 then none else some (a / b)

/-- `.ok_or(e)?` : lift an `Option` into `Except` with the given error. -/
def toExcept (o : Option α) (e : GammaError) : Except GammaError α :=
  match o with
  | some a => Except.ok a
  | none => Except.error e

/-- `FEE_RATE_DENOMINATOR_VALUE` (fees/mod.rs). -/
def FEE_RATE_DENOMINATOR_VALUE : Nat := 1000000

/-- `ceil_div` from fees/mod.rs:
`token_amount * fee_numerator`, plus `fee_denominator`, minus 1, divided by
`fee_denominator`, each step checked. -/
def ceil_div (token_amount fee_numerator fee_denominator : Nat) : Option Nat :=
  (cmul128 token_amount fee_numerator).bind fun x =>
  (cadd128 x fee_denominator).bind fun y =>
  (csub y 1).bind fun z =>
  cdiv z fee_denominator

/-- `floor_div` from fees/mod.rs. -/
def floor_div (token_amount fee_numerator fee_denominator : Nat) : Option Nat :=
  (cmul128 token_amount fee_numerator).bind fun x =>
  cdiv x fee_denominator

/-- One price observation (fields used by the dynamic fee engine). -/
structure Observation where
  block_timestamp : Nat
  cumulative_token_0_price_x32 : Nat
  cumulative_token_1_price_x32 : Nat
deriving DecidableEq, Repr

/-- The price-observation account: a bounded history of observations,
embedded as the list of its entries. -/
structure ObservationState where
  observations : List Observation
deriving DecidableEq, Repr

/-- `Decimal::from_u128`: fails above the 96-bit mantissa capacity. -/
def decFromU128 (n : Nat) : Option ℚ :=
  if n < 2 ^ 96 then some (n : ℚ) else none

/-- `Decimal::to_u128`: truncation, failing on negatives or overflow. -/
def decToU128 (q : ℚ) : Option Nat :=
  if 0 ≤ q ∧ q < (U128MOD : ℚ) then some (Int.floor q).toNat else none

/-- `Decimal::to_u64`: truncation, failing on negatives or overflow. -/
def decToU64 (q : ℚ) : Option Nat :=
  if 0 ≤ q ∧ q < (U64MOD : ℚ) then some (Int.floor q).toNat else none

/-- `Decimal::checked_div`: fails exactly on a zero divisor. -/
def decCheckedDiv (a b : ℚ) : Option ℚ :=
  if b = 0 then none else some (a / b)

/-- `MAX_FEE` (dynamic_fee.rs): 10% of the fee denominator. -/
def MAX_FEE : Nat := 100000

/-- `VOLATILITY_FACTOR` (dynamic_fee.rs). -/
def VOLATILITY_FACTOR : Nat := 30000

/-- `IMBALANCE_FACTOR` (dynamic_fee.rs). -/
def IMBALANCE_FACTOR : Nat := 20000

/-- `VOLATILITY_WINDOW` (dynamic_fee.rs): 3600 seconds. -/
def VOLATILITY_WINDOW : Nat := 3600

/-- The observation filter of `DynamicFee::get_price_range`: keep
observations with a nonzero timestamp, a nonzero cumulative token-0 price,
and age (saturating) at most `window`. -/
def valid_observations (observation_state : ObservationState)
    (current_time window : Nat) : List Observation :=
  observation_state.observations.filter fun obs =>
    decide (obs.block_timestamp ≠ 0 ∧ obs.cumulative_token_0_price_x32 ≠ 0 ∧
      current_time - obs.block_timestamp ≤ window)

/-- The pair loop of `DynamicFee::get_price_range`: walk consecutive
observation pairs accumulating `(min_price, max_price, weighted_price_sum,
total_weight)`.  Pairs with zero time delta are skipped (`continue`); a
decreasing cumulative price is a `MathOverflow`. -/
def price_range_fold :
    List Observation → Nat × Nat × ℚ × ℚ → Except GammaError (Nat × Nat × ℚ × ℚ)
  | o1 :: o2 :: rest, (mn, mx, ws, tw) =>
    let dt := o2.block_timestamp - o1.block_timestamp
    if dt = 0 then
      price_range_fold (o2 :: rest) (mn, mx, ws, tw)
    else
      match csub o2.cumulative_token_0_price_x32 o1.cumulative_token_0_price_x32 with
      | none => Except.error GammaError.mathOverflow
      | some diff =>
        match cdiv diff dt with
        | none => Except.error GammaError.mathOverflow
        | some price =>
          price_range_fold (o2 :: rest)
            (min mn price, max mx price, ws + (price : ℚ) * (dt : ℚ), tw + (dt : ℚ))
  | _, st => Except.ok st

/-- `DynamicFee::get_price_range`: returns `(min_price, max_price, twap)`,
or `(0, 0, 0)` when fewer than 2 valid observations lie in the window or the
total weight is zero. -/
def get_price_range (observation_state : ObservationState)
    (current_time window : Nat) : Except GammaError (Nat × Nat × Nat) :=
  let os := valid_observations observation_state current_time window
  if os.length < 2 then Except.ok (0, 0, 0)
  else
    match price_range_fold os (U128MAXVAL, 0, 0, 0) with
    | Except.error e => Except.error e
    | Except.ok (mn, mx, ws, tw) =>
      if tw = 0 then Except.ok (0, 0, 0)
      else
        match decCheckedDiv ws tw with
        | none => Except.error GammaError.mathOverflow
        | some twapD =>
          match decToU128 twapD with
          | none => Except.error GammaError.mathOverflow
          | some twap => Except.ok (mn, mx, twap)

/-- The liquidity-imbalance component of `calculate_volatile_fee`
(lines 107-134 of dynamic_fee.rs), as a total function of the two vault
amounts: `IMBALANCE_FACTOR * |current_ratio - ideal| / DENOMINATOR`, where
the current-ratio computation falls back to 0 on failure (`unwrap_or(0)`). -/
def imbalance_component (vault_0 vault_1 : Nat) : Except GammaError Nat := do
  let total_liquidity ← toExcept (cadd128 vault_0 vault_1) GammaError.mathOverflow
  let currentRatioVal : Nat :=
    if total_liquidity > 0 then
      (((cmul128 vault_0 FEE_RATE_DENOMINATOR_VALUE).bind fun p =>
        cdiv p total_liquidity).getD 0)
    else 0
  let idealRatioVal ← toExcept (cdiv FEE_RATE_DENOMINATOR_VALUE 2) GammaError.mathOverflow
  let imbalance : Nat :=
    if currentRatioVal > idealRatioVal then currentRatioVal - idealRatioVal
    else idealRatioVal - currentRatioVal
  pure ((cdiv (satMul64 IMBALANCE_FACTOR (imbalance % U64MOD)) FEE_RATE_DENOMINATOR_VALUE).getD 0)

/-- `DynamicFee::calculate_volatile_fee`, parameterised by the embedding
`lnf` of the external `Decimal::ln`. -/
def calculate_volatile_fee (lnf : ℚ → ℚ) (block_timestamp : Nat)
    (observation_state : ObservationState) (vault_0 vault_1 : Nat)
    (base_fees : Nat) : Except GammaError Nat := do
  let r ← get_price_range observation_state block_timestamp VOLATILITY_WINDOW
  let min_price := r.1
  let max_price := r.2.1
  let twap_price := r.2.2
  if min_price = 0 ∨ max_price = 0 ∨ twap_price = 0 then
    pure base_fees
  else do
    let max_price_decimal ← toExcept (decFromU128 max_price) GammaError.mathOverflow
    let min_price_decimal ← toExcept (decFromU128 min_price) GammaError.mathOverflow
    let twap_price_decimal ← toExcept (decFromU128 twap_price) GammaError.mathOverflow
    let log_max_price := lnf max_price_decimal
    let log_min_price := lnf min_price_decimal
    let log_twap_price := |lnf twap_price_decimal|
    let volatility_numerator := |log_max_price - log_min_price|
    let volatility_denominator := log_twap_price
    if volatility_denominator = 0 then
      pure base_fees
    else do
      let volatility ← toExcept (decCheckedDiv volatility_numerator volatility_denominator)
        GammaError.mathOverflow
      let scaled_volatility ← toExcept
        (decToU64 (volatility * (FEE_RATE_DENOMINATOR_VALUE : ℚ))) GammaError.mathOverflow
      let volatility_component_calculated ← toExcept
        (cdiv (satMul64 VOLATILITY_FACTOR scaled_volatility) FEE_RATE_DENOMINATOR_VALUE)
        GammaError.mathOverflow
      let headroom ← toExcept (csub MAX_FEE base_fees) GammaError.mathOverflow
      let volatility_component := min volatility_component_calculated headroom
      let liquidity_imbalance_component ← imbalance_component vault_0 vault_1
      let f1 ← toExcept (cadd64 base_fees volatility_component) GammaError.mathOverflow
      let dynamic_fee_total ← toExcept (cadd64 f1 liquidity_imbalance_component)
        GammaError.mathOverflow
      pure (min dynamic_fee_total MAX_FEE)

/-- `FeeType` (dynamic_fee.rs). -/
inductive FeeType where
  | volatility
deriving DecidableEq, Repr

/-- `DynamicFee::calculate_dynamic_fee`. -/
def calculate_dynamic_fee (lnf : ℚ → ℚ) (block_timestamp : Nat)
    (observation_state : ObservationState) (vault_0 vault_1 : Nat)
    (fee_type : FeeType) (base_fees : Nat) : Except GammaError Nat :=
  match fee_type with
  | FeeType.volatility =>
    calculate_volatile_fee lnf block_timestamp observation_state vault_0 vault_1 base_fees

/-- `DynamicFee::dynamic_fee`: absolute fee on `amount` at the dynamic rate,
ceiling rounded. -/
def dynamic_fee (lnf : ℚ → ℚ) (amount block_timestamp : Nat)
    (observation_state : ObservationState) (vault_0 vault_1 : Nat)
    (fee_type : FeeType) (base_fees : Nat) : Except GammaError Nat := do
  let dynamic_fee_rate ← calculate_dynamic_fee lnf block_timestamp observation_state
    vault_0 vault_1 fee_type base_fees
  toExcept (ceil_div amount dynamic_fee_rate FEE_RATE_DENOMINATOR_VALUE) GammaError.mathOverflow

/-- The nonzero-rate branch of `DynamicFee::calculate_pre_fee_amount`:
`x = (y*D + (D - r) - 1) / (D - r)`. -/
def pre_fee_from_rate (dynamic_fee_rate post_fee_amount : Nat) : Except GammaError Nat :=
  if dynamic_fee_rate = 0 then Except.ok post_fee_amount
  else do
    let numerator ← toExcept (cmul128 post_fee_amount FEE_RATE_DENOMINATOR_VALUE)
      GammaError.mathOverflow
    let denominator ← toExcept (csub FEE_RATE_DENOMINATOR_VALUE dynamic_fee_rate)
      GammaError.mathOverflow
    let s1 ← toExcept (cadd128 numerator denominator) GammaError.mathOverflow
    let s2 ← toExcept (csub s1 1) GammaError.mathOverflow
    toExcept (cdiv s2 denominator) GammaError.mathOverflow

/-- `DynamicFee::calculate_pre_fee_amount`. -/
def calculate_pre_fee_amount (lnf : ℚ → ℚ) (block_timestamp post_fee_amount : Nat)
    (observation_state : ObservationState) (vault_0 vault_1 : Nat)
    (fee_type : FeeType) (base_fees : Nat) : Except GammaError Nat := do
  let dynamic_fee_rate ← calculate_dynamic_fee lnf block_timestamp observation_state
    vault_0 vault_1 fee_type base_fees
  pre_fee_from_rate dynamic_fee_rate post_fee_amount

/-- `AmmConfig` (states/config.rs is absent from the tree; the fields are the
ones read by the swap calculators, typed per the spec's data model). -/
structure AmmConfig where
  trade_fee_rate : Nat
  protocol_fee_rate : Nat
  fund_fee_rate : Nat
  max_oracle_price_update_time_diff : Nat
deriving DecidableEq, Repr

/-- `PoolState` (states/pool.rs is absent from the tree; the fields are the
ones read by the swap calculators, typed per the spec's data model). -/
structure PoolState where
  token_0_vault_amount : Nat
  token_1_vault_amount : Nat
  protocol_fees_token_0 : Nat
  protocol_fees_token_1 : Nat
  fund_fees_token_0 : Nat
  fund_fees_token_1 : Nat
  oracle_price_token_0_by_token_1 : Nat
  oracle_price_updated_at : Nat
  acceptable_price_difference : Nat
  max_amount_swappable_at_oracle_price : Nat
  min_trade_rate_at_oracle_price : Nat
  price_premium_for_swap_at_oracle_price : Nat
deriving DecidableEq, Repr

/-- Modelled from the spec: `PoolState::vault_amount_without_fee` (pool.rs is
absent).  Per the spec's data-model invariant it returns per-side balances
that are at most the raw vault balances; the gap is the accumulated
protocol/fund fee value held in the vaults, subtracted with checked
arithmetic. -/
def vault_amount_without_fee (pool_state : PoolState) : Except GammaError (Nat × Nat) := do
  let t0 ← toExcept
    (csub pool_state.token_0_vault_amount
      (pool_state.protocol_fees_token_0 + pool_state.fund_fees_token_0))
    GammaError.mathOverflow
  let t1 ← toExcept
    (csub pool_state.token_1_vault_amount
      (pool_state.protocol_fees_token_1 + pool_state.fund_fees_token_1))
    GammaError.mathOverflow
  pure (t0, t1)

/-- `TradeDirection` (curve/calculator.rs is absent; the two directions are
used by the oracle calculator). -/
inductive TradeDirection where
  | zeroForOne
  | oneForZero
deriving DecidableEq, Repr

/-- `SwapResult` (curve/calculator.rs is absent; fields per the spec's data
model and the wasm binding). -/
structure SwapResult where
  new_swap_source_amount : Nat
  new_swap_destination_amount : Nat
  source_amount_swapped : Nat
  destination_amount_swapped : Nat
  dynamic_fee : Nat
  protocol_fee : Nat
  fund_fee : Nat
  dynamic_fee_rate : Nat
deriving DecidableEq, Repr

/-- Modelled from the spec: `StaticFee::protocol_fee` (fees/static_fees.rs is
absent): `floor_div(fee, rate, DENOMINATOR)`. -/
def static_protocol_fee (amount fee_rate : Nat) : Option Nat :=
  floor_div amount fee_rate FEE_RATE_DENOMINATOR_VALUE

/-- Modelled from the spec: `StaticFee::fund_fee` (fees/static_fees.rs is
absent): `floor_div(fee, rate, DENOMINATOR)`. -/
def static_fund_fee (amount fee_rate : Nat) : Option Nat :=
  floor_div amount fee_rate FEE_RATE_DENOMINATOR_VALUE

/-- Modelled from the spec:
`ConstantProductCurve::swap_base_input_without_fees` (constant_product.rs is
absent): `amount_out = reserve_out - (reserve_in * reserve_out) /
(reserve_in + amount_in)` with 128-bit checked intermediates. -/
def swap_base_input_without_fees (source_amount swap_source_amount swap_destination_amount : Nat) :
    Except GammaError Nat := do
  let numerator ← toExcept (cmul128 swap_source_amount swap_destination_amount)
    GammaError.mathOverflow
  let denominator ← toExcept (cadd128 swap_source_amount source_amount)
    GammaError.mathOverflow
  let q ← toExcept (cdiv numerator denominator) GammaError.mathOverflow
  toExcept (csub swap_destination_amount q) GammaError.mathOverflow

/-- The bundled argument list shared by both swap entry points. -/
structure SwapArgs where
  source_amount_to_be_swapped : Nat
  swap_source_amount : Nat
  swap_destination_amount : Nat
  amm_config : AmmConfig
  pool_state : PoolState
  block_timestamp : Nat
  observation_state : ObservationState
  is_invoked_by_signed_segmenter : Bool
deriving DecidableEq, Repr

/-- Modelled from the spec: `DynamicFee::dynamic_fee_rate` (this public entry
of the dynamic fee engine is absent from the tree; only its call sites
remain).  It reads the pool's fee-free vault amounts and computes the dynamic
fee rate through `calculate_dynamic_fee`; the spec gives the privileged
segmenter flag no computational role, so it is accepted and ignored. -/
def dynamic_fee_rate (lnf : ℚ → ℚ) (block_timestamp : Nat)
    (observation_state : ObservationState) (fee_type : FeeType)
    (base_fees : Nat) (pool_state : PoolState)
    (_is_invoked_by_signed_segmenter : Bool) : Except GammaError Nat := do
  let vaults ← vault_amount_without_fee pool_state
  calculate_dynamic_fee lnf block_timestamp observation_state vaults.1 vaults.2
    fee_type base_fees

/-- Modelled from the spec: `CurveCalculator::swap_base_input`
(curve/calculator.rs is absent): charge the dynamic fee on the input with
ceiling rounding, run the constant-product formula on the post-fee amount,
and split the fee through the static fee splitter. -/
def curve_swap_base_input (lnf : ℚ → ℚ) (a : SwapArgs) : Except GammaError SwapResult := do
  let rate ← dynamic_fee_rate lnf a.block_timestamp a.observation_state FeeType.volatility
    a.amm_config.trade_fee_rate a.pool_state a.is_invoked_by_signed_segmenter
  let fee ← toExcept (ceil_div a.source_amount_to_be_swapped rate FEE_RATE_DENOMINATOR_VALUE)
    GammaError.mathOverflow
  let after_fee ← toExcept (csub a.source_amount_to_be_swapped fee) GammaError.mathOverflow
  let out ← swap_base_input_without_fees after_fee a.swap_source_amount a.swap_destination_amount
  let protocol_fee ← toExcept (static_protocol_fee fee a.amm_config.protocol_fee_rate)
    GammaError.invalidFee
  let fund_fee ← toExcept (static_fund_fee fee a.amm_config.fund_fee_rate)
    GammaError.invalidFee
  let new_src ← toExcept (cadd128 a.swap_source_amount a.source_amount_to_be_swapped)
    GammaError.mathOverflow
  let new_dst ← toExcept (csub a.swap_destination_amount out) GammaError.mathOverflow
  pure {
    new_swap_source_amount := new_src
    new_swap_destination_amount := new_dst
    source_amount_swapped := a.source_amount_to_be_swapped
    destination_amount_swapped := out
    dynamic_fee := fee
    protocol_fee := protocol_fee
    fund_fee := fund_fee
    dynamic_fee_rate := rate }

/-- `D9` (oracle_based_swap_calculator.rs): prices scaled to 9 decimals. -/
def D9 : Nat := 1000000000

/-- `D9_TIMES_D9`. -/
def D9_TIMES_D9 : Nat := D9 * D9

/-- The inline spot-price computation of
`OracleBasedSwapCalculator::swap_base_input`:
`swap_destination_amount * D9 / swap_source_amount`, checked. -/
def spot_price_calc (swap_destination_amount swap_source_amount : Nat) : Option Nat :=
  (cmul128 swap_destination_amount D9).bind fun x =>
  cdiv x swap_source_amount

/-- The oracle price oriented along the trade direction: the stored
token0-by-token1 price for one-for-zero, its `D9²/price` inverse for
zero-for-one. -/
def oracle_price_for_direction (trade_direction : TradeDirection)
    (oracle_price_token_0_by_token_1 : Nat) : Option Nat :=
  match trade_direction with
  | TradeDirection.oneForZero => some oracle_price_token_0_by_token_1
  | TradeDirection.zeroForOne => cdiv D9_TIMES_D9 oracle_price_token_0_by_token_1

/-- `OracleBasedSwapCalculator::get_spot_price_and_oracle_price_rate_difference`:
`|spot - oracle| * DENOMINATOR / oracle`, checked. -/
def get_spot_price_and_oracle_price_rate_difference (oracle_price spot_price : Nat) :
    Except GammaError Nat :=
  toExcept
    ((cmul128 (Nat.dist spot_price oracle_price) FEE_RATE_DENOMINATOR_VALUE).bind fun x =>
      cdiv x oracle_price)
    GammaError.mathOverflow

/-- `OracleBasedSwapCalculator::get_execution_oracle_price`:
`oracle_price + oracle_price * premium / DENOMINATOR`, checked. -/
def get_execution_oracle_price (oracle_price price_premium_for_swap_at_oracle_price : Nat) :
    Except GammaError Nat := do
  let oracle_price_premium ← toExcept
    ((cmul128 oracle_price price_premium_for_swap_at_oracle_price).bind fun x =>
      cdiv x FEE_RATE_DENOMINATOR_VALUE)
    GammaError.mathOverflow
  toExcept (cadd128 oracle_price oracle_price_premium) GammaError.mathOverflow

/-- `OracleBasedSwapCalculator::get_amount_to_be_swapped_at_oracle_price`:
the oracle tranche is the minimum of the configured reserve fraction, the
amount swappable before the post-trade spot price breaches the deviation
bound (`|Z·X - Y| / (Z + P)`), and the requested amount. -/
def get_amount_to_be_swapped_at_oracle_price (source_amount_to_be_swapped
    swap_source_amount swap_destination_amount oracle_price : Nat)
    (pool_state : PoolState) (spot_price : Nat) : Except GammaError Nat := do
  let max_amount_swappable ← toExcept
    ((cmul128 swap_source_amount pool_state.max_amount_swappable_at_oracle_price).bind fun x =>
      cdiv x FEE_RATE_DENOMINATOR_VALUE)
    GammaError.mathOverflow
  let price_difference_limit ← toExcept
    (csub FEE_RATE_DENOMINATOR_VALUE pool_state.acceptable_price_difference)
    GammaError.mathOverflow
  let z ← toExcept
    ((cmul128 spot_price price_difference_limit).bind fun x =>
      cdiv x FEE_RATE_DENOMINATOR_VALUE)
    GammaError.mathOverflow
  let z_times_x ← toExcept (cmul128 z swap_source_amount) GammaError.mathOverflow
  let y_scaled_by_d9 ← toExcept (cmul128 swap_destination_amount D9) GammaError.mathOverflow
  let numerator := Nat.dist z_times_x y_scaled_by_d9
  let denominator ← toExcept (cadd128 oracle_price z) GammaError.mathOverflow
  let max_without_breach ← toExcept (cdiv numerator denominator) GammaError.mathOverflow
  let max_swap_at_oracle_price := min max_amount_swappable max_without_breach
  pure (min max_swap_at_oracle_price source_amount_to_be_swapped)

/-- The staleness gate of `OracleBasedSwapCalculator::swap_base_input`: the
oracle data is stale or absent. -/
def oracle_fallback_stale (a : SwapArgs) : Prop :=
  a.block_timestamp - a.pool_state.oracle_price_updated_at >
    a.amm_config.max_oracle_price_update_time_diff ∨
  a.block_timestamp < a.pool_state.oracle_price_updated_at ∨
  a.pool_state.oracle_price_updated_at = 0 ∨
  a.pool_state.oracle_price_token_0_by_token_1 = 0

instance (a : SwapArgs) : Decidable (oracle_fallback_stale a) := by
  unfold oracle_fallback_stale; infer_instance

/-- The blended tranche execution of
`OracleBasedSwapCalculator::swap_base_input` (lines 216-318): fee and output
of the oracle tranche at the premium-adjusted oracle price, then the
remaining tranche through the constant-product formula on the adjusted
reserves, summing outputs and fees.  `curveSwap` and `dynFeeRate` stand for
`CurveCalculator::swap_base_input` and `DynamicFee::dynamic_fee_rate`. -/
def oracle_blended_swap (dynFeeRate : Nat → ObservationState → FeeType → Nat → PoolState →
      Bool → Except GammaError Nat)
    (a : SwapArgs) (oracle_price amount_at_oracle amount_with_curve : Nat) :
    Except GammaError SwapResult := do
  let rate ← dynFeeRate a.block_timestamp a.observation_state FeeType.volatility
    a.amm_config.trade_fee_rate a.pool_state a.is_invoked_by_signed_segmenter
  let oracle_trade_rate := max rate a.pool_state.min_trade_rate_at_oracle_price
  let trade_fees_for_oracle_swap ← toExcept
    (ceil_div amount_at_oracle oracle_trade_rate FEE_RATE_DENOMINATOR_VALUE)
    GammaError.mathOverflow
  let source_after_fees_oracle ← toExcept (csub amount_at_oracle trade_fees_for_oracle_swap)
    GammaError.mathOverflow
  let execution_oracle_price ← get_execution_oracle_price oracle_price
    a.pool_state.price_premium_for_swap_at_oracle_price
  let output_tokens ← toExcept
    ((cmul128 execution_oracle_price source_after_fees_oracle).bind fun x => cdiv x D9)
    GammaError.mathOverflow
  let new_swap_source_amount ← toExcept (csub a.swap_source_amount source_after_fees_oracle)
    GammaError.mathOverflow
  let new_swap_destination_amount ← toExcept (cadd128 a.swap_destination_amount output_tokens)
    GammaError.mathOverflow
  let trade_fees_for_invariant_curve ← toExcept
    (ceil_div amount_with_curve rate FEE_RATE_DENOMINATOR_VALUE)
    GammaError.mathOverflow
  let source_amount_after_fees ← toExcept (csub amount_with_curve trade_fees_for_invariant_curve)
    GammaError.mathOverflow
  let destination_amount_swapped_with_curve ← swap_base_input_without_fees
    source_amount_after_fees new_swap_source_amount new_swap_destination_amount
  let trade_fee_charged ← toExcept
    (cadd128 trade_fees_for_invariant_curve trade_fees_for_oracle_swap)
    GammaError.mathOverflow
  let trade_fee_rate ← toExcept
    ((cmul128 trade_fee_charged FEE_RATE_DENOMINATOR_VALUE).bind fun x =>
      cdiv x a.source_amount_to_be_swapped)
    GammaError.mathOverflow
  let destination_amount_swapped ← toExcept
    (cadd128 destination_amount_swapped_with_curve output_tokens)
    GammaError.mathOverflow
  let protocol_fee ← toExcept (static_protocol_fee trade_fee_charged a.amm_config.protocol_fee_rate)
    GammaError.invalidFee
  let fund_fee ← toExcept (static_fund_fee trade_fee_charged a.amm_config.fund_fee_rate)
    GammaError.invalidFee
  let res_src ← toExcept (cadd128 a.swap_source_amount a.source_amount_to_be_swapped)
    GammaError.mathOverflow
  let res_dst ← toExcept (csub a.swap_destination_amount destination_amount_swapped)
    GammaError.mathOverflow
  pure {
    new_swap_source_amount := res_src
    new_swap_destination_amount := res_dst
    source_amount_swapped := a.source_amount_to_be_swapped
    destination_amount_swapped := destination_amount_swapped
    dynamic_fee := trade_fee_charged
    protocol_fee := protocol_fee
    fund_fee := fund_fee
    dynamic_fee_rate := trade_fee_rate % U64MOD }

/-- `OracleBasedSwapCalculator::swap_base_input`, parameterised by the
fallback calculator `curveSwap` (= `CurveCalculator::swap_base_input`) and
the fee-rate entry `dynFeeRate` (= `DynamicFee::dynamic_fee_rate`). -/
def oracle_swap_base_input (curveSwap : SwapArgs → Except GammaError SwapResult)
    (dynFeeRate : Nat → ObservationState → FeeType → Nat → PoolState →
      Bool → Except GammaError Nat)
    (a : SwapArgs) : Except GammaError SwapResult :=
  if oracle_fallback_stale a then curveSwap a
  else do
    let vaults ← vault_amount_without_fee a.pool_state
    let trade_direction :=
      if a.swap_source_amount = vaults.1 then TradeDirection.zeroForOne
      else TradeDirection.oneForZero
    let spot_price ← toExcept (spot_price_calc a.swap_destination_amount a.swap_source_amount)
      GammaError.mathOverflow
    let oracle_price ← toExcept
      (oracle_price_for_direction trade_direction a.pool_state.oracle_price_token_0_by_token_1)
      GammaError.mathOverflow
    let rate_difference ← get_spot_price_and_oracle_price_rate_difference oracle_price spot_price
    if rate_difference > a.pool_state.acceptable_price_difference then curveSwap a
    else do
      let amount_at_oracle ← get_amount_to_be_swapped_at_oracle_price
        a.source_amount_to_be_swapped a.swap_source_amount a.swap_destination_amount
        oracle_price a.pool_state spot_price
      let amount_with_curve ← toExcept (csub a.source_amount_to_be_swapped amount_at_oracle)
        GammaError.mathOverflow
      if amount_at_oracle = 0 then curveSwap a
      else oracle_blended_swap dynFeeRate a oracle_price amount_at_oracle amount_with_curve

/-- `PartnerInfo` (states/partner.rs).  `Pubkey` is embedded as `Nat`, with
`Pubkey::default()` = 0. -/
structure PartnerInfo where
  partner : Nat
  lp_token_linked_with_partner : Nat
  total_claimed_fee_amount_token_0 : Nat
  total_claimed_fee_amount_token_1 : Nat
  total_earned_fee_amount_token_0 : Nat
  total_earned_fee_amount_token_1 : Nat
deriving DecidableEq, Repr

/-- `PoolPartnerInfos` (states/partner.rs).  The fixed-size array of
`PARTNER_SIZE` entries is embedded as the list of its entries. -/
structure PoolPartnerInfos where
  last_observed_fee_amount_token_0 : Nat
  last_observed_fee_amount_token_1 : Nat
  infos : List PartnerInfo
deriving DecidableEq, Repr

/-- `PoolPartnerInfos::total_partner_linked_lp_tokens`: sum of linked LP over
entries whose partner key is not the default. -/
def total_partner_linked_lp_tokens (s : PoolPartnerInfos) : Nat :=
  (s.infos.filterMap fun i =>
    if i.partner ≠ 0 then some i.lp_token_linked_with_partner else none).sum

/-- The per-entry loop of `PoolPartnerInfos::update_fee_amounts`: entries
with the default partner key are left untouched; each registered entry earns
`(fees - last_observed) * linked_lp / total_linked_lp` per token side
(floor), checked at every step. -/
def update_partner_infos (f0 f1 l0 l1 t : Nat) :
    List PartnerInfo → Except GammaError (List PartnerInfo)
  | [] => Except.ok []
  | i :: rest =>
    if i.partner = 0 then do
      let r ← update_partner_infos f0 f1 l0 l1 t rest
      pure (i :: r)
    else do
      let d0 ← toExcept (csub f0 l0) GammaError.mathError
      let n0 ← toExcept (cmul128 d0 i.lp_token_linked_with_partner) GammaError.mathError
      let q0 ← toExcept (cdiv n0 t) GammaError.mathError
      let earnings_token_0 ← toExcept (if q0 < U64MOD then some q0 else none) GammaError.mathError
      let d1 ← toExcept (csub f1 l1) GammaError.mathError
      let n1 ← toExcept (cmul128 d1 i.lp_token_linked_with_partner) GammaError.mathError
      let q1 ← toExcept (cdiv n1 t) GammaError.mathError
      let earnings_token_1 ← toExcept (if q1 < U64MOD then some q1 else none) GammaError.mathError
      let t0 ← toExcept (cadd64 i.total_earned_fee_amount_token_0 earnings_token_0)
        GammaError.mathOverflow
      let t1 ← toExcept (cadd64 i.total_earned_fee_amount_token_1 earnings_token_1)
        GammaError.mathOverflow
      let r ← update_partner_infos f0 f1 l0 l1 t rest
      pure ({ i with
        total_earned_fee_amount_token_0 := t0
        total_earned_fee_amount_token_1 := t1 } :: r)

/-- `PoolPartnerInfos::update_fee_amounts`: distribute the fee delta since
the last observation proportionally to linked LP, then advance the
last-observed counters; a zero total of linked LP is an immediate `Ok` with
no change. -/
def update_fee_amounts (s : PoolPartnerInfos)
    (partner_protocol_fees_token_0 partner_protocol_fees_token_1 : Nat) :
    Except GammaError PoolPartnerInfos :=
  let t := total_partner_linked_lp_tokens s
  if t = 0 then Except.ok s
  else do
    let infos2 ← update_partner_infos partner_protocol_fees_token_0
      partner_protocol_fees_token_1 s.last_observed_fee_amount_token_0
      s.last_observed_fee_amount_token_1 t s.infos
    pure {
      last_observed_fee_amount_token_0 := partner_protocol_fees_token_0
      last_observed_fee_amount_token_1 := partner_protocol_fees_token_1
      infos := infos2 }

/-- `MAX_REWARDS` (states/global_reward_info.rs). -/
def MAX_REWARDS : Nat := 3

/-- `Snapshot` (states/global_reward_info.rs).  The per-reward coverage array
is embedded as a list of `MAX_REWARDS` entries. -/
structure Snapshot where
  reward_calculated_for_lp_amount : List Nat
  total_lp_amount : Nat
  timestamp : Nat
deriving DecidableEq, Repr

/-- `GlobalRewardInfo` (states/global_reward_info.rs).  Reward-info account
keys are embedded as `Nat` with `Pubkey::default()` = 0; the three fixed
slots are lists of `MAX_REWARDS` entries. -/
structure GlobalRewardInfo where
  active_boosted_reward_info : List Nat
  reward_calculated_for_lp_amount : List Nat
  start_times : List (Option Nat)
  snapshots : List Snapshot
deriving DecidableEq, Repr

/-- Reward-slot `i` is initialised (`active_boosted_reward_info[i] !=
Pubkey::default()`). -/
def reward_slot_initialized (g : GlobalRewardInfo) (i : Nat) : Bool :=
  g.active_boosted_reward_info.getD i 0 != 0

/-- The fold of `remove_all_inactive_snapshots` computing the minimum start
time over the `Some` entries, starting from `u64::MAX`. -/
def min_start_time (g : GlobalRewardInfo) : Nat :=
  g.start_times.foldl
    (fun a b => match b with | some v => min a v | none => a) U64MAXVAL

/-- A snapshot is still required for reward slot `i1`/`i2`/`i3`: the slot is
initialised and the snapshot's coverage counter for it has not reached the
snapshot's total LP amount. -/
def snapshot_required (i1 i2 i3 : Bool) (sn : Snapshot) : Bool :=
  (i1 && !(sn.total_lp_amount == sn.reward_calculated_for_lp_amount.getD 0 0)) ||
  (i2 && !(sn.total_lp_amount == sn.reward_calculated_for_lp_amount.getD 1 0)) ||
  (i3 && !(sn.total_lp_amount == sn.reward_calculated_for_lp_amount.getD 2 0))

/-- The front-popping while loop of `remove_all_inactive_snapshots`: drop
front snapshots that predate the minimum start time or are no longer
required by any initialised slot; stop at the first required snapshot. -/
def prune_front (i1 i2 i3 : Bool) (minStart : Nat) : List Snapshot → List Snapshot
  | [] => []
  | sn :: rest =>
    if sn.timestamp < minStart then prune_front i1 i2 i3 minStart rest
    else if snapshot_required i1 i2 i3 sn then sn :: rest
    else prune_front i1 i2 i3 minStart rest

/-- `GlobalRewardInfo::remove_all_inactive_snapshots`. -/
def remove_all_inactive_snapshots (g : GlobalRewardInfo) : GlobalRewardInfo :=
  let i1 := reward_slot_initialized g 0
  let i2 := reward_slot_initialized g 1
  let i3 := reward_slot_initialized g 2
  if !i1 && !i2 && !i3 then { g with snapshots := [] }
  else
    let minStart := min_start_time g
    if minStart = U64MAXVAL then { g with snapshots := [] }
    else { g with snapshots := prune_front i1 i2 i3 minStart g.snapshots }

/-- `RewardInfo` with the fields read by
`UserRewardInfo::calculate_claimable_rewards` (the account's key, the reward
window, and the emission rate referenced by that function). -/
structure RewardInfo where
  key : Nat
  start_at : Nat
  end_rewards_at : Nat
  emission_per_second : Nat
deriving DecidableEq, Repr

/-- `UserRewardInfo` (states/user_reward_info.rs). -/
structure UserRewardInfo where
  total_claimed : Nat
  total_rewards : Nat
  rewards_last_calculated_at : Nat
deriving DecidableEq, Repr

/-- `GlobalUserLpSnapshot` (states/user_reward_info.rs). -/
structure GlobalUserLpSnapshot where
  lp_amount : Nat
  timestamp : Nat
deriving DecidableEq, Repr

/-- `GlobalUserLpRecentChange` (states/user_reward_info.rs). -/
structure GlobalUserLpRecentChange where
  rewards_calculated_upto : List Nat
  lp_snapshots : List GlobalUserLpSnapshot
deriving DecidableEq, Repr

/-- The inner loop of `calculate_claimable_rewards` over the global snapshot
queue, threading `(updated snapshots, last_disbursed_till, total_rewards,
has_reached_end_of_rewards)`.  Each processed snapshot has its coverage
counter for `idx` raised by the user-snapshot LP amount, and accrues
`emission * duration * lp_owned / supply` to the running total. -/
def snapshot_accrue (ri : RewardInfo) (idx lp_owned supply user_snap_lp : Nat) :
    List Snapshot → Nat → Nat → Bool → Except GammaError (List Snapshot × Nat × Nat × Bool)
  | [], last, total, reached => Except.ok ([], last, total, reached)
  | sn :: rest, last, total, reached =>
    if reached then Except.ok (sn :: rest, last, total, reached)
    else if sn.timestamp < last then do
      let r ← snapshot_accrue ri idx lp_owned supply user_snap_lp rest last total reached
      pure (sn :: r.1, r.2.1, r.2.2.1, r.2.2.2)
    else do
      let endTime := if ri.end_rewards_at < sn.timestamp then ri.end_rewards_at else sn.timestamp
      let reached2 := if ri.end_rewards_at < sn.timestamp then true else reached
      let cov ← toExcept (cadd64 (sn.reward_calculated_for_lp_amount.getD idx 0) user_snap_lp)
        GammaError.mathOverflow
      let duration ← toExcept (csub endTime last) GammaError.mathOverflow
      let m1 ← toExcept (cmul64 ri.emission_per_second duration) GammaError.mathOverflow
      let m2 ← toExcept (cmul64 m1 lp_owned) GammaError.mathOverflow
      let amt ← toExcept (cdiv m2 supply) GammaError.mathOverflow
      let total2 ← toExcept (cadd64 total amt) GammaError.mathOverflow
      let sn2 := { sn with
        reward_calculated_for_lp_amount := sn.reward_calculated_for_lp_amount.set idx cov }
      let r ← snapshot_accrue ri idx lp_owned supply user_snap_lp rest endTime total2 reached2
      pure (sn2 :: r.1, r.2.1, r.2.2.1, r.2.2.2)

/-- The outer loop of `calculate_claimable_rewards` over the user's LP
snapshots (including the virtual trailing snapshot): snapshots older than
the cursor are skipped, the rest replay the inner loop over the global
queue. -/
def user_snapshots_accrue (ri : RewardInfo) (idx lp_owned supply : Nat) :
    List GlobalUserLpSnapshot → List Snapshot → Nat → Nat → Bool →
    Except GammaError (List Snapshot × Nat × Nat × Bool)
  | [], snaps, last, total, reached => Except.ok (snaps, last, total, reached)
  | us :: rest, snaps, last, total, reached =>
    if us.timestamp < last then
      user_snapshots_accrue ri idx lp_owned supply rest snaps last total reached
    else do
      let r ← snapshot_accrue ri idx lp_owned supply us.lp_amount snaps last total reached
      user_snapshots_accrue ri idx lp_owned supply rest r.1 r.2.1 r.2.2.1 r.2.2.2

/-- `UserRewardInfo::calculate_claimable_rewards`: locate the reward's slot,
push a virtual trailing LP snapshot at `time_now`, walk the snapshot
history accruing time-weighted rewards, handle the final open interval up to
`min(time_now, end_rewards_at)` unless the end was already reached, and
write back the cursor and coverage updates (the virtual snapshot is removed
again, so the user's stored LP snapshots are unchanged). -/
def calculate_claimable_rewards (u : UserRewardInfo) (lp_owned_by_user current_lp_supply : Nat)
    (urc : GlobalUserLpRecentChange) (g : GlobalRewardInfo) (ri : RewardInfo)
    (time_now : Nat) :
    Except GammaError (UserRewardInfo × GlobalUserLpRecentChange × GlobalRewardInfo) :=
  match g.active_boosted_reward_info.findIdx? (fun r => r == ri.key) with
  | none => Except.ok (u, urc, g)
  | some idx => do
    let userSnaps := urc.lp_snapshots ++ [⟨lp_owned_by_user, time_now⟩]
    let last0 := max ri.start_at u.rewards_last_calculated_at
    let r ← user_snapshots_accrue ri idx lp_owned_by_user current_lp_supply userSnaps
      g.snapshots last0 u.total_rewards false
    let snaps2 := r.1
    let last1 := r.2.1
    let total1 := r.2.2.1
    let reached := r.2.2.2
    if reached then
      pure ({ u with total_rewards := total1, rewards_last_calculated_at := last1 },
        { urc with rewards_calculated_upto := urc.rewards_calculated_upto.set idx time_now },
        { g with snapshots := snaps2 })
    else do
      let endTime := min time_now ri.end_rewards_at
      let duration ← toExcept (csub endTime last1) GammaError.mathOverflow
      let cov ← toExcept (cadd64 (g.reward_calculated_for_lp_amount.getD idx 0) lp_owned_by_user)
        GammaError.mathOverflow
      let m1 ← toExcept (cmul64 ri.emission_per_second duration) GammaError.mathOverflow
      let m2 ← toExcept (cmul64 m1 lp_owned_by_user) GammaError.mathOverflow
      let amt ← toExcept (cdiv m2 current_lp_supply) GammaError.mathOverflow
      let total2 ← toExcept (cadd64 total1 amt) GammaError.mathOverflow
      pure ({ u with total_rewards := total2, rewards_last_calculated_at := endTime },
        { urc with rewards_calculated_upto := urc.rewards_calculated_upto.set idx time_now },
        { g with
          snapshots := snaps2
          reward_calculated_for_lp_amount := g.reward_calculated_for_lp_amount.set idx cov })

/-- A concrete model of a natural-logarithm table satisfying `IsLogLike`,
used to instantiate statements that quantify over the external logarithm. -/
def lnLinear : ℚ → ℚ := fun x => x - 1

/-- The properties of the external `Decimal::ln` routine the statements rely
on: it vanishes at 1 and is positive beyond 1. -/
def IsLogLike (l : ℚ → ℚ) : Prop :=
  l 1 = 0 ∧ ∀ x : ℚ, 1 < x → 0 < l x

theorem lnLinear_isLogLike : IsLogLike lnLinear := by
  constructor
  · simp [lnLinear]
  · intro x hx
    simp only [lnLinear]
    linarith

deriving instance DecidableEq for Except

theorem toExcept_eq_ok {α : Type} {o : Option α} {e : GammaError} {x : α} :
    toExcept o e = Except.ok x ↔ o = some x := by
  cases o <;> simp [toExcept]

theorem except_bind_ok {α β : Type} {m : Except GammaError α}
    {f : α → Except GammaError β} {a : α} (h : m = Except.ok a) :
    (m >>= f) = f a := by
  rw [h]; rfl

theorem except_bind_eq_ok {α β : Type} {m : Except GammaError α}
    {f : α → Except GammaError β} {b : β} (h : (m >>= f) = Except.ok b) :
    ∃ a, m = Except.ok a ∧ f a = Except.ok b := by
  cases m with
  | ok a => exact ⟨a, rfl, h⟩
  | error e => exact absurd h (by simp [Bind.bind, Except.bind])

theorem cmul128_eq_some {a b c : Nat} : cmul128 a b = some c ↔ a * b < U128MOD ∧ c = a * b := by
  unfold cmul128; split <;> simp_all <;> omega

theorem cadd128_eq_some {a b c : Nat} : cadd128 a b = some c ↔ a + b < U128MOD ∧ c = a + b := by
  unfold cadd128; split <;> simp_all <;> omega

theorem cmul64_eq_some {a b c : Nat} : cmul64 a b = some c ↔ a * b < U64MOD ∧ c = a * b := by
  unfold cmul64; split <;> simp_all <;> omega

theorem cadd64_eq_some {a b c : Nat} : cadd64 a b = some c ↔ a + b < U64MOD ∧ c = a + b := by
  unfold cadd64; split <;> simp_all <;> omega

theorem csub_eq_some {a b c : Nat} : csub a b = some c ↔ b ≤ a ∧ c = a - b := by
  unfold csub; split <;> simp_all <;> omega

theorem cdiv_eq_some {a b c : Nat} : cdiv a b = some c ↔ b ≠ 0 ∧ c = a / b := by
  unfold cdiv; split
  · simp_all
  · simp_all [eq_comm]

/-- `C10`: with zero partner-linked LP the update is an `Ok` no-op: the whole
structure, in particular both last-observed counters, is returned
unchanged. -/
theorem update_fee_amounts_zero_linked_lp_noop (s : PoolPartnerInfos)
    (partner_protocol_fees_token_0 partner_protocol_fees_token_1 : Nat)
    (h : total_partner_linked_lp_tokens s = 0) :
    update_fee_amounts s partner_protocol_fees_token_0 partner_protocol_fees_token_1 =
      Except.ok s := by
  unfold update_fee_amounts
  simp [h]

/-- A pool-partner table with one registered partner holding zero linked LP
and nonzero last-observed counters. -/
def partnerTableZeroLp : PoolPartnerInfos where
  last_observed_fee_amount_token_0 := 10
  last_observed_fee_amount_token_1 := 20
  infos := [{
    partner := 3
    lp_token_linked_with_partner := 0
    total_claimed_fee_amount_token_0 := 0
    total_claimed_fee_amount_token_1 := 0
    total_earned_fee_amount_token_0 := 11
    total_earned_fee_amount_token_1 := 0 }]

/-- Witness for `C10`: a pool with one registered partner holding zero
linked LP and stale last-observed counters is returned unchanged — the
passed-in counters 31/45 are not written back. -/
theorem update_fee_amounts_zero_linked_lp_noop_witness :
    total_partner_linked_lp_tokens partnerTableZeroLp = 0 ∧
    update_fee_amounts partnerTableZeroLp 31 45 = Except.ok partnerTableZeroLp :=
  ⟨by decide, update_fee_amounts_zero_linked_lp_noop _ 31 45 (by decide)⟩

/-- `C7`: whenever `get_amount_to_be_swapped_at_oracle_price` succeeds, the
oracle tranche is at most `swap_source_amount *
max_amount_swappable_at_oracle_price / 1_000_000` and at most the requested
trade size. -/
theorem oracle_tranche_capped (source_amount_to_be_swapped swap_source_amount
    swap_destination_amount oracle_price : Nat) (pool_state : PoolState)
    (spot_price r : Nat)
    (h : get_amount_to_be_swapped_at_oracle_price source_amount_to_be_swapped
      swap_source_amount swap_destination_amount oracle_price pool_state spot_price =
      Except.ok r) :
    r ≤ swap_source_amount * pool_state.max_amount_swappable_at_oracle_price /
        FEE_RATE_DENOMINATOR_VALUE ∧
    r ≤ source_amount_to_be_swapped := by
  unfold get_amount_to_be_swapped_at_oracle_price at h
  obtain ⟨mA, h1, h⟩ := except_bind_eq_ok h
  obtain ⟨lim, h2, h⟩ := except_bind_eq_ok h
  obtain ⟨z, h3, h⟩ := except_bind_eq_ok h
  obtain ⟨zx, h4, h⟩ := except_bind_eq_ok h
  obtain ⟨yd, h5, h⟩ := except_bind_eq_ok h
  obtain ⟨den, h6, h⟩ := except_bind_eq_ok h
  obtain ⟨mB, h7, h⟩ := except_bind_eq_ok h
  have hr : r = min (min mA mB) source_amount_to_be_swapped := by
    have := h
    simp only [pure, Except.pure, Except.ok.injEq] at this
    exact this.symm
  rw [toExcept_eq_ok, Option.bind_eq_some] at h1
  obtain ⟨x1, hx1, hx2⟩ := h1
  rw [cmul128_eq_some] at hx1
  rw [cdiv_eq_some] at hx2
  constructor
  · have : mA = swap_source_amount * pool_state.max_amount_swappable_at_oracle_price /
        FEE_RATE_DENOMINATOR_VALUE := by
      rw [hx2.2, hx1.2]
    calc r ≤ min mA mB := by rw [hr]; exact min_le_left _ _
    _ ≤ mA := min_le_left _ _
    _ = _ := this
  · rw [hr]; exact min_le_right _ _

/-- Pool guardrails for the oracle-tranche cap witness: 10% of the reserve
may trade at oracle price, 5% price deviation is acceptable. -/
def poolTrancheCap : PoolState where
  token_0_vault_amount := 1000
  token_1_vault_amount := 500
  protocol_fees_token_0 := 0
  protocol_fees_token_1 := 0
  fund_fees_token_0 := 0
  fund_fees_token_1 := 0
  oracle_price_token_0_by_token_1 := 1000000000
  oracle_price_updated_at := 1000
  acceptable_price_difference := 50000
  max_amount_swappable_at_oracle_price := 100000
  min_trade_rate_at_oracle_price := 1000
  price_premium_for_swap_at_oracle_price := 1000

/-- Witness for `C7`: with `max_amount_swappable_at_oracle_price = 100_000`
and `swap_source_amount = 1000`, a gigantic requested trade of `10^30` yields
an oracle tranche of 100, within both caps. -/
theorem oracle_tranche_capped_witness :
    get_amount_to_be_swapped_at_oracle_price (10 ^ 30) 1000 500 1000000000
      poolTrancheCap 1050000000 = Except.ok 100 ∧
    (100 ≤ 1000 * poolTrancheCap.max_amount_swappable_at_oracle_price /
        FEE_RATE_DENOMINATOR_VALUE ∧
      100 ≤ 10 ^ 30) :=
  ⟨by decide,
    oracle_tranche_capped (10 ^ 30) 1000 500 1000000000 poolTrancheCap 1050000000 100
      (by decide)⟩

/-- The deviation gate of `OracleBasedSwapCalculator::swap_base_input`: the
spot-vs-oracle rate difference, as computed by the function, exceeds the
pool's acceptable price difference. -/
def oracle_deviation_gate (a : SwapArgs) : Prop :=
  ∃ v sp op rd,
    vault_amount_without_fee a.pool_state = Except.ok v ∧
    spot_price_calc a.swap_destination_amount a.swap_source_amount = some sp ∧
    oracle_price_for_direction
      (if a.swap_source_amount = v.1 then TradeDirection.zeroForOne
        else TradeDirection.oneForZero)
      a.pool_state.oracle_price_token_0_by_token_1 = some op ∧
    get_spot_price_and_oracle_price_rate_difference op sp = Except.ok rd ∧
    a.pool_state.acceptable_price_difference < rd

/-- The zero-tranche gate of `OracleBasedSwapCalculator::swap_base_input`:
the computed oracle tranche is 0. -/
def oracle_zero_tranche_gate (a : SwapArgs) : Prop :=
  ∃ v sp op rd,
    vault_amount_without_fee a.pool_state = Except.ok v ∧
    spot_price_calc a.swap_destination_amount a.swap_source_amount = some sp ∧
    oracle_price_for_direction
      (if a.swap_source_amount = v.1 then TradeDirection.zeroForOne
        else TradeDirection.oneForZero)
      a.pool_state.oracle_price_token_0_by_token_1 = some op ∧
    get_spot_price_and_oracle_price_rate_difference op sp = Except.ok rd ∧
    get_amount_to_be_swapped_at_oracle_price a.source_amount_to_be_swapped
      a.swap_source_amount a.swap_destination_amount op a.pool_state sp = Except.ok 0

/-- `C1`: whenever the staleness gate trips, or the spot-vs-oracle deviation
exceeds the acceptable bound, or the oracle tranche resolves to 0,
`OracleBasedSwapCalculator::swap_base_input` returns exactly the result of
`CurveCalculator::swap_base_input` on the same arguments — for every
fallback calculator and every dynamic-fee-rate function. -/
theorem oracle_swap_fallback_matches_curve
    (curveSwap : SwapArgs → Except GammaError SwapResult)
    (dynFeeRate : Nat → ObservationState → FeeType → Nat → PoolState →
      Bool → Except GammaError Nat)
    (a : SwapArgs)
    (h : oracle_fallback_stale a ∨ oracle_deviation_gate a ∨ oracle_zero_tranche_gate a) :
    oracle_swap_base_input curveSwap dynFeeRate a = curveSwap a := by
  by_cases hs : oracle_fallback_stale a
  · unfold oracle_swap_base_input
    rw [if_pos hs]
  · rcases h with h | h | h
    · exact absurd h hs
    · obtain ⟨v, sp, op, rd, hv, hsp, hop, hrd, hgt⟩ := h
      unfold oracle_swap_base_input
      rw [if_neg hs]
      simp only [except_bind_ok hv, except_bind_ok (toExcept_eq_ok.mpr hsp),
        except_bind_ok (toExcept_eq_ok.mpr hop), except_bind_ok hrd]
      rw [if_pos hgt]
    · obtain ⟨v, sp, op, rd, hv, hsp, hop, hrd, hz⟩ := h
      unfold oracle_swap_base_input
      rw [if_neg hs]
      simp only [except_bind_ok hv, except_bind_ok (toExcept_eq_ok.mpr hsp),
        except_bind_ok (toExcept_eq_ok.mpr hop), except_bind_ok hrd]
      by_cases hgt : rd > a.pool_state.acceptable_price_difference
      · rw [if_pos hgt]
      · rw [if_neg hgt]
        have hsub : csub a.source_amount_to_be_swapped 0 =
            some a.source_amount_to_be_swapped := by
          simp [csub]
        simp only [except_bind_ok hz, except_bind_ok (toExcept_eq_ok.mpr hsub)]
        simp

/-- Swap arguments with a stale oracle: the oracle price was updated at
1000, the allowed age is 60 seconds, and the call happens at 1070. -/
def staleSwapArgs : SwapArgs where
  source_amount_to_be_swapped := 100000
  swap_source_amount := 1000000
  swap_destination_amount := 1000000
  amm_config := {
    trade_fee_rate := 3000
    protocol_fee_rate := 100000
    fund_fee_rate := 100000
    max_oracle_price_update_time_diff := 60 }
  pool_state := {
    token_0_vault_amount := 1000000
    token_1_vault_amount := 1000000
    protocol_fees_token_0 := 0
    protocol_fees_token_1 := 0
    fund_fees_token_0 := 0
    fund_fees_token_1 := 0
    oracle_price_token_0_by_token_1 := 1000000000
    oracle_price_updated_at := 1000
    acceptable_price_difference := 50000
    max_amount_swappable_at_oracle_price := 100000
    min_trade_rate_at_oracle_price := 1000
    price_premium_for_swap_at_oracle_price := 1000 }
  block_timestamp := 1070
  observation_state := ⟨[]⟩
  is_invoked_by_signed_segmenter := false

/-- Witness for `C1`: at `block_timestamp = 1070` with the oracle updated at
1000 and a 60-second limit the staleness gate trips, and the oracle-based
swap equals the plain curve swap (both instantiated with the spec-modelled
fallback and fee-rate entries). -/
theorem oracle_swap_fallback_matches_curve_witness :
    oracle_fallback_stale staleSwapArgs ∧
    oracle_swap_base_input (curve_swap_base_input lnLinear) (dynamic_fee_rate lnLinear)
      staleSwapArgs = curve_swap_base_input lnLinear staleSwapArgs :=
  ⟨by decide,
    oracle_swap_fallback_matches_curve (curve_swap_base_input lnLinear)
      (dynamic_fee_rate lnLinear) staleSwapArgs (Or.inl (by decide))⟩

/-- Arithmetic core of the fee-inversion round trip: for `0 < r < D`, with
`x = (post*D + (D-r) - 1) / (D-r)` and `f = (x*r + D - 1) / D`, the
post-fee amount is recovered exactly: `f = x - post` with `post ≤ x`. -/
theorem pre_fee_roundtrip_core (D r post x f : Nat) (h0 : 0 < r) (h1 : r < D)
    (hx : x = (post * D + (D - r) - 1) / (D - r))
    (hf : f = (x * r + D - 1) / D) :
    f = x - post ∧ post ≤ x := by
  have hD : 0 < D := by omega
  have hd : 0 < D - r := by omega
  have hA1 := Nat.div_add_mod (post * D + (D - r) - 1) (D - r)
  rw [← hx] at hA1
  have hm1 := Nat.mod_lt (post * D + (D - r) - 1) hd
  have hxd_lb : post * D ≤ (D - r) * x := by omega
  have hxd_ub : (D - r) * x < (post + 1) * D := by
    have : (post + 1) * D = post * D + D := Nat.succ_mul post D
    omega
  have hq : ((D - r) * x) / D = post := Nat.div_eq_of_lt_le hxd_lb hxd_ub
  have hA2 := Nat.div_add_mod ((D - r) * x) D
  rw [hq] at hA2
  have hm2 := Nat.mod_lt ((D - r) * x) hD
  have hcomm : D * post = post * D := Nat.mul_comm D post
  have hXR : x * r + (D - r) * x = x * D := by
    rw [Nat.mul_comm (D - r) x, ← Nat.mul_add]
    congr 1
    omega
  have hpx : post ≤ x := by
    have hmul : post * D ≤ x * D := by omega
    exact Nat.le_of_mul_le_mul_right hmul hD
  have hsub1 : (x - post) * D = x * D - post * D := Nat.sub_mul x post D
  have hsucc : (x - post + 1) * D = (x - post) * D + D := Nat.succ_mul (x - post) D
  have hfe : f = x - post := by
    rw [hf]
    apply Nat.div_eq_of_lt_le
    · omega
    · omega
  exact ⟨hfe, hpx⟩

/-- `C8`: for `post_fee_amount > 0` and a dynamic fee rate `r` with
`0 < r < FEE_RATE_DENOMINATOR_VALUE`, the pre-fee amount `x` computed by
`calculate_pre_fee_amount` fed back through `dynamic_fee`'s charge gives
back `post_fee_amount` exactly (hence within one unit): `x - f = post`. -/
theorem pre_fee_amount_roundtrip (lnf : ℚ → ℚ) (block_timestamp post : Nat)
    (observation_state : ObservationState) (vault_0 vault_1 base_fees r x f : Nat)
    (hr : calculate_dynamic_fee lnf block_timestamp observation_state vault_0 vault_1
      FeeType.volatility base_fees = Except.ok r)
    (hpost : 0 < post) (h0 : 0 < r) (h1 : r < FEE_RATE_DENOMINATOR_VALUE)
    (hx : calculate_pre_fee_amount lnf block_timestamp post observation_state vault_0 vault_1
      FeeType.volatility base_fees = Except.ok x)
    (hf : dynamic_fee lnf x block_timestamp observation_state vault_0 vault_1
      FeeType.volatility base_fees = Except.ok f) :
    x - f = post ∧ f ≤ x := by
  unfold calculate_pre_fee_amount at hx
  rw [except_bind_ok hr] at hx
  unfold pre_fee_from_rate at hx
  rw [if_neg (by omega : ¬ r = 0)] at hx
  obtain ⟨num, hn1, hx⟩ := except_bind_eq_ok hx
  obtain ⟨den, hd1, hx⟩ := except_bind_eq_ok hx
  obtain ⟨s1, hs1, hx⟩ := except_bind_eq_ok hx
  obtain ⟨s2, hs2, hx⟩ := except_bind_eq_ok hx
  rw [toExcept_eq_ok, cdiv_eq_some] at hx
  rw [toExcept_eq_ok, cmul128_eq_some] at hn1
  rw [toExcept_eq_ok, csub_eq_some] at hd1
  rw [toExcept_eq_ok, cadd128_eq_some] at hs1
  rw [toExcept_eq_ok, csub_eq_some] at hs2
  unfold dynamic_fee at hf
  rw [except_bind_ok hr] at hf
  rw [toExcept_eq_ok] at hf
  unfold ceil_div at hf
  rw [Option.bind_eq_some] at hf
  obtain ⟨m1, hm1, hf⟩ := hf
  rw [Option.bind_eq_some] at hf
  obtain ⟨m2, hm2, hf⟩ := hf
  rw [Option.bind_eq_some] at hf
  obtain ⟨m3, hm3, hf⟩ := hf
  rw [cmul128_eq_some] at hm1
  rw [cadd128_eq_some] at hm2
  rw [csub_eq_some] at hm3
  rw [cdiv_eq_some] at hf
  have hxval : x = (post * FEE_RATE_DENOMINATOR_VALUE +
      (FEE_RATE_DENOMINATOR_VALUE - r) - 1) / (FEE_RATE_DENOMINATOR_VALUE - r) := by
    have hden : den = FEE_RATE_DENOMINATOR_VALUE - r := hd1.2
    have hs2v : s2 = post * FEE_RATE_DENOMINATOR_VALUE +
        (FEE_RATE_DENOMINATOR_VALUE - r) - 1 := by
      rw [hs2.2, hs1.2, hn1.2, hden]
    rw [hx.2, hs2v, hden]
  have hfval : f = (x * r + FEE_RATE_DENOMINATOR_VALUE - 1) /
      FEE_RATE_DENOMINATOR_VALUE := by
    have hm3v : m3 = x * r + FEE_RATE_DENOMINATOR_VALUE - 1 := by
      rw [hm3.2, hm2.2, hm1.2]
    rw [hf.2, hm3v]
  obtain ⟨hfe, hpx⟩ := pre_fee_roundtrip_core FEE_RATE_DENOMINATOR_VALUE r post x f h0 h1
    hxval hfval
  omega

/-- Witness for `C8`: with no observations the dynamic rate is the base fee
3000; `post = 997` gives pre-fee amount 1000 and fee 3, and `1000 - 3 =
997`. -/
theorem pre_fee_amount_roundtrip_witness :
    calculate_dynamic_fee lnLinear 0 ⟨[]⟩ 5 5 FeeType.volatility 3000 = Except.ok 3000 ∧
    calculate_pre_fee_amount lnLinear 0 997 ⟨[]⟩ 5 5 FeeType.volatility 3000 =
      Except.ok 1000 ∧
    dynamic_fee lnLinear 1000 0 ⟨[]⟩ 5 5 FeeType.volatility 3000 = Except.ok 3 ∧
    1000 - 3 = 997 ∧ 3 ≤ 1000 :=
  ⟨by rfl, by rfl, by rfl,
    pre_fee_amount_roundtrip lnLinear 0 997 ⟨[]⟩ 5 5 3000 3000 1000 3 (by rfl)
      (by decide) (by decide) (by decide) (by rfl) (by rfl)⟩

/-- `C9`: all degenerate volatility inputs produce `Ok(base_fees)` rather
than an error: fewer than 2 valid observations in the window, a zero
min/max/TWAP price, or a zero logarithm of the TWAP. -/
theorem volatile_fee_degenerate_returns_base (lnf : ℚ → ℚ) (block_timestamp : Nat)
    (observation_state : ObservationState) (vault_0 vault_1 base_fees : Nat)
    (h : (valid_observations observation_state block_timestamp VOLATILITY_WINDOW).length < 2 ∨
      (∃ m M T, get_price_range observation_state block_timestamp VOLATILITY_WINDOW =
          Except.ok (m, M, T) ∧ (m = 0 ∨ M = 0 ∨ T = 0)) ∨
      (∃ m M T, get_price_range observation_state block_timestamp VOLATILITY_WINDOW =
          Except.ok (m, M, T) ∧ ¬(m = 0 ∨ M = 0 ∨ T = 0) ∧
          m < 2 ^ 96 ∧ M < 2 ^ 96 ∧ T < 2 ^ 96 ∧ |lnf (T : ℚ)| = 0)) :
    calculate_volatile_fee lnf block_timestamp observation_state vault_0 vault_1 base_fees =
      Except.ok base_fees := by
  rcases h with h | ⟨m, M, T, hr, hz⟩ | ⟨m, M, T, hr, hnz, hm96, hM96, hT96, habs⟩
  · have hr : get_price_range observation_state block_timestamp VOLATILITY_WINDOW =
        Except.ok (0, 0, 0) := by
      unfold get_price_range
      simp [h]
    unfold calculate_volatile_fee
    simp only [except_bind_ok hr]
    simp [pure, Except.pure]
  · unfold calculate_volatile_fee
    simp only [except_bind_ok hr]
    rw [if_pos hz]
    rfl
  · have hdM : decFromU128 M = some ((M : Nat) : ℚ) := by
      unfold decFromU128
      rw [if_pos hM96]
    have hdm : decFromU128 m = some ((m : Nat) : ℚ) := by
      unfold decFromU128
      rw [if_pos hm96]
    have hdT : decFromU128 T = some ((T : Nat) : ℚ) := by
      unfold decFromU128
      rw [if_pos hT96]
    unfold calculate_volatile_fee
    simp only [except_bind_ok hr]
    rw [if_neg hnz]
    simp only [except_bind_ok (toExcept_eq_ok.mpr hdM), except_bind_ok (toExcept_eq_ok.mpr hdm),
      except_bind_ok (toExcept_eq_ok.mpr hdT)]
    rw [if_pos habs]
    rfl

/-- Witness for `C9`: an empty observation history has fewer than 2 valid
observations, and the fee comes back as `Ok` of the unchanged base fee. -/
theorem volatile_fee_degenerate_returns_base_witness :
    (valid_observations ⟨[]⟩ 0 VOLATILITY_WINDOW).length < 2 ∧
    calculate_volatile_fee lnLinear 0 ⟨[]⟩ 7 9 4000 = Except.ok 4000 :=
  ⟨by decide,
    volatile_fee_degenerate_returns_base lnLinear 0 ⟨[]⟩ 7 9 4000 (Or.inl (by decide))⟩

/-- The volatility component exactly as the spec sentence describes it:
`|ln max - ln min| / |ln twap|`, scaled to the fee denominator and
multiplied by `VOLATILITY_FACTOR`. -/
def claimed_volatility_component (lnf : ℚ → ℚ) (min_price max_price twap_price : Nat) :
    Option Nat :=
  (decToU64 (|lnf (max_price : ℚ) - lnf (min_price : ℚ)| / |lnf (twap_price : ℚ)| *
      (FEE_RATE_DENOMINATOR_VALUE : ℚ))).bind fun scaled =>
    some (VOLATILITY_FACTOR * scaled / FEE_RATE_DENOMINATOR_VALUE)

/-- An observation history with two valid in-window observations and a
constant instantaneous price of 4. -/
def twoObsConstPrice : ObservationState := ⟨[⟨1000, 1000, 0⟩, ⟨1010, 1040, 0⟩]⟩

theorem twoObsConstPrice_range :
    get_price_range twoObsConstPrice 1010 VOLATILITY_WINDOW = Except.ok (4, 4, 4) := by
  norm_num [twoObsConstPrice, get_price_range, valid_observations, price_range_fold, csub,
    cdiv, decCheckedDiv, decToU128, U128MAXVAL, U128MOD, VOLATILITY_WINDOW, List.filter,
    Int.toNat]

/-- Bound on the liquidity-imbalance component: it is at most
`u64::MAX / FEE_RATE_DENOMINATOR_VALUE`. -/
theorem imbalance_component_le (vault_0 vault_1 imb : Nat)
    (h : imbalance_component vault_0 vault_1 = Except.ok imb) :
    imb ≤ U64MAXVAL / FEE_RATE_DENOMINATOR_VALUE := by
  unfold imbalance_component at h
  obtain ⟨t, h1, h⟩ := except_bind_eq_ok h
  obtain ⟨ideal, h2, h⟩ := except_bind_eq_ok h
  simp only [pure, Except.pure, Except.ok.injEq] at h
  have hc : ∀ x : Nat, cdiv (satMul64 IMBALANCE_FACTOR x) FEE_RATE_DENOMINATOR_VALUE =
      some (satMul64 IMBALANCE_FACTOR x / FEE_RATE_DENOMINATOR_VALUE) := by
    intro x
    simp [cdiv, FEE_RATE_DENOMINATOR_VALUE]
  rw [hc] at h
  rw [← h]
  simp only [Option.getD_some]
  exact Nat.div_le_div_right (min_le_right _ _)

/-- Closed form of `calculate_volatile_fee` on the live-signal path: the
rate is `min(base + min(volatility component, MAX_FEE - base) + imbalance
component, MAX_FEE)`, and it never exceeds `MAX_FEE`. -/
theorem calculate_volatile_fee_closed_form (lnf : ℚ → ℚ) (block_timestamp : Nat)
    (observation_state : ObservationState) (vault_0 vault_1 base_fees m M T s imb : Nat)
    (hrange : get_price_range observation_state block_timestamp VOLATILITY_WINDOW =
      Except.ok (m, M, T))
    (hnz : ¬(m = 0 ∨ M = 0 ∨ T = 0))
    (hm96 : m < 2 ^ 96) (hM96 : M < 2 ^ 96) (hT96 : T < 2 ^ 96)
    (hden : ¬ |lnf (T : ℚ)| = 0)
    (hscaled : decToU64 (|lnf (M : ℚ) - lnf (m : ℚ)| / |lnf (T : ℚ)| *
      (FEE_RATE_DENOMINATOR_VALUE : ℚ)) = some s)
    (himb : imbalance_component vault_0 vault_1 = Except.ok imb)
    (hbase : base_fees ≤ MAX_FEE) :
    calculate_volatile_fee lnf block_timestamp observation_state vault_0 vault_1 base_fees =
      Except.ok (min (base_fees +
        min (satMul64 VOLATILITY_FACTOR s / FEE_RATE_DENOMINATOR_VALUE)
          (MAX_FEE - base_fees) + imb) MAX_FEE) ∧
    min (base_fees + min (satMul64 VOLATILITY_FACTOR s / FEE_RATE_DENOMINATOR_VALUE)
      (MAX_FEE - base_fees) + imb) MAX_FEE ≤ MAX_FEE := by
  refine ⟨?_, min_le_right _ _⟩
  have hdM : decFromU128 M = some ((M : Nat) : ℚ) := by
      unfold decFromU128
      rw [if_pos hM96]
  have hdm : decFromU128 m = some ((m : Nat) : ℚ) := by
      unfold decFromU128
      rw [if_pos hm96]
  have hdT : decFromU128 T = some ((T : Nat) : ℚ) := by
      unfold decFromU128
      rw [if_pos hT96]
  have hdiv : decCheckedDiv (|lnf (M : ℚ) - lnf (m : ℚ)|) (|lnf (T : ℚ)|) =
      some (|lnf (M : ℚ) - lnf (m : ℚ)| / |lnf (T : ℚ)|) := by
    simp [decCheckedDiv, hden]
  have hvc : cdiv (satMul64 VOLATILITY_FACTOR s) FEE_RATE_DENOMINATOR_VALUE =
      some (satMul64 VOLATILITY_FACTOR s / FEE_RATE_DENOMINATOR_VALUE) := by
    simp [cdiv, FEE_RATE_DENOMINATOR_VALUE]
  have hhead : csub MAX_FEE base_fees = some (MAX_FEE - base_fees) := by
    simp [csub, hbase]
  have hf1 : cadd64 base_fees
      (min (satMul64 VOLATILITY_FACTOR s / FEE_RATE_DENOMINATOR_VALUE)
        (MAX_FEE - base_fees)) =
      some (base_fees +
        min (satMul64 VOLATILITY_FACTOR s / FEE_RATE_DENOMINATOR_VALUE)
          (MAX_FEE - base_fees)) := by
    unfold cadd64
    rw [if_pos]
    have hle := min_le_right (satMul64 VOLATILITY_FACTOR s / FEE_RATE_DENOMINATOR_VALUE)
      (MAX_FEE - base_fees)
    unfold MAX_FEE at hbase hle ⊢
    unfold U64MOD
    omega
  have himbb := imbalance_component_le vault_0 vault_1 imb himb
  have hf2 : cadd64 (base_fees +
      min (satMul64 VOLATILITY_FACTOR s / FEE_RATE_DENOMINATOR_VALUE)
        (MAX_FEE - base_fees)) imb =
      some (base_fees +
        min (satMul64 VOLATILITY_FACTOR s / FEE_RATE_DENOMINATOR_VALUE)
          (MAX_FEE - base_fees) + imb) := by
    unfold cadd64
    rw [if_pos]
    have hle := min_le_right (satMul64 VOLATILITY_FACTOR s / FEE_RATE_DENOMINATOR_VALUE)
      (MAX_FEE - base_fees)
    unfold U64MAXVAL U64MOD FEE_RATE_DENOMINATOR_VALUE at himbb
    unfold MAX_FEE at hbase hle ⊢
    unfold U64MOD
    omega
  unfold calculate_volatile_fee
  simp only [except_bind_ok hrange]
  rw [if_neg hnz]
  simp only [except_bind_ok (toExcept_eq_ok.mpr hdM), except_bind_ok (toExcept_eq_ok.mpr hdm),
    except_bind_ok (toExcept_eq_ok.mpr hdT)]
  rw [if_neg hden]
  simp only [except_bind_ok (toExcept_eq_ok.mpr hdiv),
    except_bind_ok (toExcept_eq_ok.mpr hscaled), except_bind_ok (toExcept_eq_ok.mpr hvc),
    except_bind_ok (toExcept_eq_ok.mpr hhead), except_bind_ok himb,
    except_bind_ok (toExcept_eq_ok.mpr hf1), except_bind_ok (toExcept_eq_ok.mpr hf2)]
  rfl

theorem volatile_fee_at_twoObs_imbalanced :
    calculate_volatile_fee lnLinear 1010 twoObsConstPrice 1000000 0 3000 =
      Except.ok 13000 := by
  have h := (calculate_volatile_fee_closed_form lnLinear 1010 twoObsConstPrice
    1000000 0 3000 4 4 4 0 10000
    twoObsConstPrice_range (by decide) (by decide) (by decide) (by decide)
    (by norm_num [lnLinear])
    (by norm_num [decToU64, lnLinear, U64MOD, Int.toNat])
    (by decide) (by decide)).1
  rw [h]
  rfl

theorem claimed_component_at_twoObs :
    claimed_volatility_component lnLinear 4 4 4 = some 0 := by
  norm_num [claimed_volatility_component, decToU64, lnLinear, U64MOD, Int.toNat]

/-- Counterexample for `C2`: the claim — that on a live volatility signal the
returned rate is `base + min(volatility component, MAX_FEE - base)`,
determined solely by the base fee and the volatility measure — is false: at
2 in-window observations of constant price 4 (zero volatility), base fee
3000 and vaults `(1_000_000, 0)`, the code returns 13000 (the liquidity
imbalance adds `IMBALANCE_FACTOR * imbalance / D = 10000`), not 3000. -/
theorem volatile_fee_claim_refuted :
    ¬ (∀ lnf : ℚ → ℚ, IsLogLike lnf →
      ∀ (block_timestamp : Nat) (observation_state : ObservationState)
        (vault_0 vault_1 base_fees m M T comp : Nat),
        get_price_range observation_state block_timestamp VOLATILITY_WINDOW =
          Except.ok (m, M, T) →
        m ≠ 0 → M ≠ 0 → T ≠ 0 →
        lnf (T : ℚ) ≠ 0 →
        base_fees ≤ MAX_FEE →
        claimed_volatility_component lnf m M T = some comp →
        calculate_volatile_fee lnf block_timestamp observation_state vault_0 vault_1
          base_fees = Except.ok (base_fees + min comp (MAX_FEE - base_fees))) := by
  intro h
  have h4 : lnLinear ((4 : Nat) : ℚ) ≠ 0 := by norm_num [lnLinear]
  have := h lnLinear lnLinear_isLogLike 1010 twoObsConstPrice 1000000 0 3000 4 4 4 0
    twoObsConstPrice_range (by decide) (by decide) (by decide) h4 (by decide)
    claimed_component_at_twoObs
  rw [volatile_fee_at_twoObs_imbalanced] at this
  simp [MAX_FEE] at this

/-- `C2` amended: on a live volatility signal `calculate_volatile_fee`
returns `min(base + min(volatility component, MAX_FEE - base) +
imbalance component, MAX_FEE)` — the liquidity-imbalance term is added on
top of the claimed formula before the outer `MAX_FEE` cap — and the result
never exceeds `MAX_FEE`. -/
theorem volatile_fee_formula_amended (lnf : ℚ → ℚ) (block_timestamp : Nat)
    (observation_state : ObservationState) (vault_0 vault_1 base_fees m M T s imb : Nat)
    (hrange : get_price_range observation_state block_timestamp VOLATILITY_WINDOW =
      Except.ok (m, M, T))
    (hnz : ¬(m = 0 ∨ M = 0 ∨ T = 0))
    (hm96 : m < 2 ^ 96) (hM96 : M < 2 ^ 96) (hT96 : T < 2 ^ 96)
    (hden : ¬ |lnf (T : ℚ)| = 0)
    (hscaled : decToU64 (|lnf (M : ℚ) - lnf (m : ℚ)| / |lnf (T : ℚ)| *
      (FEE_RATE_DENOMINATOR_VALUE : ℚ)) = some s)
    (himb : imbalance_component vault_0 vault_1 = Except.ok imb)
    (hbase : base_fees ≤ MAX_FEE) :
    calculate_volatile_fee lnf block_timestamp observation_state vault_0 vault_1 base_fees =
      Except.ok (min (base_fees +
        min (satMul64 VOLATILITY_FACTOR s / FEE_RATE_DENOMINATOR_VALUE)
          (MAX_FEE - base_fees) + imb) MAX_FEE) ∧
    min (base_fees + min (satMul64 VOLATILITY_FACTOR s / FEE_RATE_DENOMINATOR_VALUE)
      (MAX_FEE - base_fees) + imb) MAX_FEE ≤ MAX_FEE :=
  calculate_volatile_fee_closed_form lnf block_timestamp observation_state vault_0
    vault_1 base_fees m M T s imb hrange hnz hm96 hM96 hT96 hden hscaled himb hbase

/-- Witness for the amended `C2`: at the two-observation history of constant
price 4 with `lnLinear`, base fee 3000 and vaults `(1_000_000, 0)`, the
formula gives `min(3000 + 0 + 10000, 100000) = 13000` and the cap holds. -/
theorem volatile_fee_formula_amended_witness :
    calculate_volatile_fee lnLinear 1010 twoObsConstPrice 1000000 0 3000 =
      Except.ok (min (3000 +
        min (satMul64 VOLATILITY_FACTOR 0 / FEE_RATE_DENOMINATOR_VALUE)
          (MAX_FEE - 3000) + 10000) MAX_FEE) ∧
    min (3000 + min (satMul64 VOLATILITY_FACTOR 0 / FEE_RATE_DENOMINATOR_VALUE)
      (MAX_FEE - 3000) + 10000) MAX_FEE ≤ MAX_FEE :=
  volatile_fee_formula_amended lnLinear 1010 twoObsConstPrice 1000000 0 3000 4 4 4 0 10000
    twoObsConstPrice_range (by decide) (by decide) (by decide) (by decide)
    (by norm_num [lnLinear])
    (by norm_num [decToU64, lnLinear, U64MOD, Int.toNat])
    (by decide) (by decide)

/-- `GlobalRewardInfo::has_any_active_rewards`. -/
def has_any_active_rewards (g : GlobalRewardInfo) : Bool :=
  reward_slot_initialized g 0 || reward_slot_initialized g 1 || reward_slot_initialized g 2

/-- A snapshot has full coverage for all active streams: every initialised
slot's coverage counter equals the snapshot's total LP amount. -/
def snapshot_full_coverage (i1 i2 i3 : Bool) (sn : Snapshot) : Bool :=
  (!i1 || (sn.total_lp_amount == sn.reward_calculated_for_lp_amount.getD 0 0)) &&
  (!i2 || (sn.total_lp_amount == sn.reward_calculated_for_lp_amount.getD 1 0)) &&
  (!i3 || (sn.total_lp_amount == sn.reward_calculated_for_lp_amount.getD 2 0))

theorem snapshot_required_eq_not_full_coverage (i1 i2 i3 : Bool) (sn : Snapshot) :
    snapshot_required i1 i2 i3 sn = !snapshot_full_coverage i1 i2 i3 sn := by
  cases i1 <;> cases i2 <;> cases i3 <;>
    simp [snapshot_required, snapshot_full_coverage]

/-- The property `C4` asserts of `remove_all_inactive_snapshots`: retained
snapshots are a contiguous suffix of the original queue, the front-most
retained snapshot's timestamp is at least every active stream's start time,
and no retained snapshot has full coverage for all active streams. -/
def snapshots_pruning_claim_check (g : GlobalRewardInfo) : Bool :=
  let g2 := remove_all_inactive_snapshots g
  g2.snapshots.isSuffixOf g.snapshots &&
  ((List.range MAX_REWARDS).all fun j =>
    !(reward_slot_initialized g j) ||
      (match g2.snapshots.head?, g.start_times.getD j none with
       | some hd, some st => decide (st ≤ hd.timestamp)
       | _, _ => true)) &&
  (g2.snapshots.all fun sn =>
    !(snapshot_full_coverage (reward_slot_initialized g 0) (reward_slot_initialized g 1)
      (reward_slot_initialized g 2) sn))

/-- A reward state with two active streams (starting at 10 and 100) and two
snapshots: the front one still required, the second fully covered. -/
def rewardStateTwoStreams : GlobalRewardInfo where
  active_boosted_reward_info := [1, 2, 0]
  reward_calculated_for_lp_amount := [0, 0, 0]
  start_times := [some 10, some 100, none]
  snapshots := [⟨[0, 0, 0], 50, 50⟩, ⟨[50, 50, 50], 50, 60⟩]

/-- Counterexample for `C4`: on `rewardStateTwoStreams` (which has active
streams) the pruning loop stops at the first still-required snapshot, so the
retained queue keeps a front snapshot with timestamp 50 < 100 = the second
stream's start time, and keeps a later snapshot that is fully covered for
all active streams — both of the claim's last two conjuncts fail. -/
theorem snapshots_pruning_claim_refuted :
    has_any_active_rewards rewardStateTwoStreams = true ∧
    snapshots_pruning_claim_check rewardStateTwoStreams = false := by
  decide

theorem prune_front_suffix (i1 i2 i3 : Bool) (minStart : Nat) (l : List Snapshot) :
    prune_front i1 i2 i3 minStart l <:+ l := by
  induction l with
  | nil => simp [prune_front]
  | cons sn rest ih =>
    unfold prune_front
    by_cases h1 : sn.timestamp < minStart
    · rw [if_pos h1]
      exact ih.trans (List.suffix_cons sn rest)
    · rw [if_neg h1]
      by_cases h2 : snapshot_required i1 i2 i3 sn = true
      · rw [if_pos h2]
      · rw [if_neg h2]
        exact ih.trans (List.suffix_cons sn rest)

theorem prune_front_head (i1 i2 i3 : Bool) (minStart : Nat) (l : List Snapshot) :
    ∀ hd, (prune_front i1 i2 i3 minStart l).head? = some hd →
      minStart ≤ hd.timestamp ∧ snapshot_required i1 i2 i3 hd = true := by
  induction l with
  | nil => intro hd h; simp [prune_front] at h
  | cons sn rest ih =>
    intro hd h
    unfold prune_front at h
    by_cases h1 : sn.timestamp < minStart
    · rw [if_pos h1] at h
      exact ih hd h
    · rw [if_neg h1] at h
      by_cases h2 : snapshot_required i1 i2 i3 sn = true
      · rw [if_pos h2] at h
        simp only [List.head?_cons, Option.some.injEq] at h
        subst h
        exact ⟨Nat.le_of_not_lt h1, h2⟩
      · rw [if_neg h2] at h
        exact ih hd h

/-- `C4` amended: for every state with at least one active reward stream,
after `remove_all_inactive_snapshots` the retained snapshots are a
contiguous suffix of the original queue (front-only removal), and the
front-most retained snapshot (if any) has a timestamp at least the
*minimum* start time over active streams and lacks full coverage for at
least one active stream.  (Per-stream front bounds and the absence of fully
covered snapshots deeper in the queue do not hold, per the
counterexample.) -/
theorem remove_all_inactive_snapshots_amended (g : GlobalRewardInfo)
    (hactive : has_any_active_rewards g = true) :
    ((remove_all_inactive_snapshots g).snapshots <:+ g.snapshots) ∧
    ∀ hd, (remove_all_inactive_snapshots g).snapshots.head? = some hd →
      min_start_time g ≤ hd.timestamp ∧
      snapshot_full_coverage (reward_slot_initialized g 0) (reward_slot_initialized g 1)
        (reward_slot_initialized g 2) hd = false := by
  have hcond : (!reward_slot_initialized g 0 && !reward_slot_initialized g 1 &&
      !reward_slot_initialized g 2) = false := by
    unfold has_any_active_rewards at hactive
    cases h0 : reward_slot_initialized g 0 <;> cases h1 : reward_slot_initialized g 1 <;>
      cases h2 : reward_slot_initialized g 2 <;> simp_all
  unfold remove_all_inactive_snapshots
  simp only [hcond, Bool.false_eq_true, if_false]
  by_cases hms : min_start_time g = U64MAXVAL
  · rw [if_pos hms]
    refine ⟨List.nil_suffix, ?_⟩
    intro hd h
    simp at h
  · rw [if_neg hms]
    refine ⟨prune_front_suffix _ _ _ _ _, ?_⟩
    intro hd h
    obtain ⟨hle, hreq⟩ := prune_front_head _ _ _ _ _ hd h
    refine ⟨hle, ?_⟩
    rw [snapshot_required_eq_not_full_coverage] at hreq
    simp only [Bool.not_eq_true'] at hreq
    exact hreq

/-- Witness for the amended `C4`: on `rewardStateTwoStreams` the retained
queue is a suffix, and its front snapshot (timestamp 50) is at or after the
minimum start time 10 and lacks full coverage for the first stream. -/
theorem remove_all_inactive_snapshots_amended_witness :
    has_any_active_rewards rewardStateTwoStreams = true ∧
    ((remove_all_inactive_snapshots rewardStateTwoStreams).snapshots <:+
      rewardStateTwoStreams.snapshots) ∧
    (min_start_time rewardStateTwoStreams ≤ (50 : Nat) ∧
      snapshot_full_coverage (reward_slot_initialized rewardStateTwoStreams 0)
        (reward_slot_initialized rewardStateTwoStreams 1)
        (reward_slot_initialized rewardStateTwoStreams 2) ⟨[0, 0, 0], 50, 50⟩ = false) :=
  ⟨by decide,
    (remove_all_inactive_snapshots_amended rewardStateTwoStreams (by decide)).1,
    (remove_all_inactive_snapshots_amended rewardStateTwoStreams (by decide)).2
      ⟨[0, 0, 0], 50, 50⟩ (by decide)⟩

/-- Sum of `total_earned_fee_amount_token_0` over a partner table. -/
def total_earned_token_0 (l : List PartnerInfo) : Nat :=
  (l.map fun i => i.total_earned_fee_amount_token_0).sum

/-- Sum of `total_earned_fee_amount_token_1` over a partner table. -/
def total_earned_token_1 (l : List PartnerInfo) : Nat :=
  (l.map fun i => i.total_earned_fee_amount_token_1).sum

/-- Number of registered partners (non-default key). -/
def registered_count (l : List PartnerInfo) : Nat :=
  (l.filter fun i => i.partner != 0).length

/-- The linked-LP amounts of the registered partners, in table order. -/
def registered_linked_lp (l : List PartnerInfo) : List Nat :=
  l.filterMap fun i =>
    if i.partner ≠ 0 then some i.lp_token_linked_with_partner else none

theorem registered_linked_lp_length (l : List PartnerInfo) :
    (registered_linked_lp l).length = registered_count l := by
  induction l with
  | nil => rfl
  | cons i rest ih =>
    by_cases hp : i.partner = 0 <;>
      simp [registered_linked_lp, registered_count, List.filterMap_cons, hp,
        List.filter_cons] at ih ⊢ <;>
      exact ih

/-- Distributing `d` by floor shares `d * v / t` over weights summing to
`t ≠ 0` loses only a remainder bounded by the number of weights. -/
theorem sum_floor_shares (l : List Nat) (d t : Nat) (ht : t ≠ 0) (hsum : l.sum = t) :
    ∃ rem, rem ≤ l.length ∧ (l.map fun v => d * v / t).sum + rem = d := by
  have key : ∀ xs : List Nat, (xs.map fun v => d * v).sum =
      t * (xs.map fun v => d * v / t).sum + (xs.map fun v => d * v % t).sum := by
    intro xs
    induction xs with
    | nil => simp
    | cons x rest ih =>
      simp only [List.map_cons, List.sum_cons]
      have hx := Nat.div_add_mod (d * x) t
      rw [Nat.mul_add]
      omega
  have hmap0 : ∀ xs : List Nat, (xs.map fun v => d * v).sum = d * xs.sum := by
    intro xs
    induction xs with
    | nil => simp
    | cons x rest ih =>
      simp only [List.map_cons, List.sum_cons, ih, Nat.mul_add]
  have hmap : (l.map fun v => d * v).sum = d * t := by
    rw [hmap0, hsum]
  have hrem0 : ∀ xs : List Nat, (xs.map fun v => d * v % t).sum + xs.length ≤
      xs.length * t := by
    intro xs
    induction xs with
    | nil => simp
    | cons x rest ih =>
      simp only [List.map_cons, List.sum_cons, List.length_cons]
      have hx : d * x % t < t := Nat.mod_lt (d * x) (Nat.pos_of_ne_zero ht)
      have hmul : (rest.length + 1) * t = rest.length * t + t := Nat.succ_mul _ _
      omega
  have hrem := hrem0 l
  have hlen : l.length ≠ 0 := by
    intro hl
    rw [List.length_eq_zero] at hl
    subst hl
    simp at hsum
    omega
  have hkey := key l
  rw [hmap] at hkey
  set Q := (l.map fun v => d * v / t).sum with hQ
  set R := (l.map fun v => d * v % t).sum with hR
  have hQd : Q ≤ d := by
    have h1 : t * Q ≤ t * d := by
      have : d * t = t * d := Nat.mul_comm d t
      omega
    exact Nat.le_of_mul_le_mul_left h1 (Nat.pos_of_ne_zero ht)
  refine ⟨d - Q, ?_, by omega⟩
  have hTR : t * (d - Q) = R := by
    have h2 : t * (d - Q) = t * d - t * Q := Nat.mul_sub t d Q
    have : d * t = t * d := Nat.mul_comm d t
    omega
  have hlt : t * (d - Q) < t * l.length := by
    have h4 : l.length * t = t * l.length := Nat.mul_comm _ _
    omega
  have := Nat.lt_of_mul_lt_mul_left hlt
  omega

/-- Conservation through the per-entry loop: the per-side earned sums grow
by exactly the floor shares of the observed deltas over the registered
linked-LP weights. -/
theorem update_partner_infos_sums (f0 f1 l0 l1 t : Nat) :
    ∀ l l2 : List PartnerInfo, update_partner_infos f0 f1 l0 l1 t l = Except.ok l2 →
    total_earned_token_0 l2 = total_earned_token_0 l +
      ((registered_linked_lp l).map fun v => (f0 - l0) * v / t).sum ∧
    total_earned_token_1 l2 = total_earned_token_1 l +
      ((registered_linked_lp l).map fun v => (f1 - l1) * v / t).sum := by
  intro l
  induction l with
  | nil =>
    intro l2 h
    simp only [update_partner_infos, Except.ok.injEq] at h
    subst h
    simp [total_earned_token_0, total_earned_token_1, registered_linked_lp]
  | cons i rest ih =>
    intro l2 h
    unfold update_partner_infos at h
    by_cases hp : i.partner = 0
    · rw [if_pos hp] at h
      obtain ⟨r, hr, h⟩ := except_bind_eq_ok h
      simp only [pure, Except.pure, Except.ok.injEq] at h
      subst h
      obtain ⟨ih0, ih1⟩ := ih r hr
      constructor
      · simp [total_earned_token_0, registered_linked_lp, List.filterMap_cons, hp]
          at ih0 ⊢
        omega
      · simp [total_earned_token_1, registered_linked_lp, List.filterMap_cons, hp]
          at ih1 ⊢
        omega
    · rw [if_neg hp] at h
      obtain ⟨d0, hd0, h⟩ := except_bind_eq_ok h
      obtain ⟨n0, hn0, h⟩ := except_bind_eq_ok h
      obtain ⟨q0, hq0, h⟩ := except_bind_eq_ok h
      obtain ⟨e0, he0, h⟩ := except_bind_eq_ok h
      obtain ⟨d1, hd1, h⟩ := except_bind_eq_ok h
      obtain ⟨n1, hn1, h⟩ := except_bind_eq_ok h
      obtain ⟨q1, hq1, h⟩ := except_bind_eq_ok h
      obtain ⟨e1, he1, h⟩ := except_bind_eq_ok h
      obtain ⟨t0, ht0, h⟩ := except_bind_eq_ok h
      obtain ⟨t1, ht1, h⟩ := except_bind_eq_ok h
      obtain ⟨r, hr, h⟩ := except_bind_eq_ok h
      simp only [pure, Except.pure, Except.ok.injEq] at h
      subst h
      rw [toExcept_eq_ok, csub_eq_some] at hd0 hd1
      rw [toExcept_eq_ok, cmul128_eq_some] at hn0 hn1
      rw [toExcept_eq_ok, cdiv_eq_some] at hq0 hq1
      rw [toExcept_eq_ok, cadd64_eq_some] at ht0 ht1
      have he0v : e0 = q0 := by
        rcases he0' : (if q0 < U64MOD then some q0 else none) with _ | v
        · rw [toExcept_eq_ok, he0'] at he0; cases he0
        · rw [toExcept_eq_ok, he0'] at he0
          split at he0'
          · cases he0; cases he0'; rfl
          · cases he0'
      have he1v : e1 = q1 := by
        rcases he1' : (if q1 < U64MOD then some q1 else none) with _ | v
        · rw [toExcept_eq_ok, he1'] at he1; cases he1
        · rw [toExcept_eq_ok, he1'] at he1
          split at he1'
          · cases he1; cases he1'; rfl
          · cases he1'
      obtain ⟨ih0, ih1⟩ := ih r hr
      have he0x : e0 = (f0 - l0) * i.lp_token_linked_with_partner / t := by
        rw [he0v, hq0.2, hn0.2, hd0.2]
      have he1x : e1 = (f1 - l1) * i.lp_token_linked_with_partner / t := by
        rw [he1v, hq1.2, hn1.2, hd1.2]
      constructor
      · simp [total_earned_token_0, registered_linked_lp, List.filterMap_cons, hp,
          ht0.2, he0x] at ih0 ⊢
        omega
      · simp [total_earned_token_1, registered_linked_lp, List.filterMap_cons, hp,
          ht1.2, he1x] at ih1 ⊢
        omega

/-- `C6`: across a successful `update_fee_amounts` call with nonzero total
partner-linked LP, the per-token sums of `total_earned_fee_amount` increase
by the fee-counter delta since the last observation, up to a floor-rounding
remainder at most the number of registered partners, and the last-observed
counters are set to the passed-in values. -/
theorem update_fee_amounts_conservation (s : PoolPartnerInfos)
    (partner_protocol_fees_token_0 partner_protocol_fees_token_1 : Nat)
    (s2 : PoolPartnerInfos)
    (ht : total_partner_linked_lp_tokens s ≠ 0)
    (h : update_fee_amounts s partner_protocol_fees_token_0 partner_protocol_fees_token_1 =
      Except.ok s2) :
    s2.last_observed_fee_amount_token_0 = partner_protocol_fees_token_0 ∧
    s2.last_observed_fee_amount_token_1 = partner_protocol_fees_token_1 ∧
    (∃ rem0, rem0 ≤ registered_count s.infos ∧
      total_earned_token_0 s2.infos + rem0 = total_earned_token_0 s.infos +
        (partner_protocol_fees_token_0 - s.last_observed_fee_amount_token_0)) ∧
    (∃ rem1, rem1 ≤ registered_count s.infos ∧
      total_earned_token_1 s2.infos + rem1 = total_earned_token_1 s.infos +
        (partner_protocol_fees_token_1 - s.last_observed_fee_amount_token_1)) := by
  unfold update_fee_amounts at h
  rw [if_neg ht] at h
  obtain ⟨infos2, hupd, h⟩ := except_bind_eq_ok h
  simp only [pure, Except.pure, Except.ok.injEq] at h
  subst h
  obtain ⟨hs0, hs1⟩ := update_partner_infos_sums _ _ _ _ _ _ _ hupd
  have hlpsum : (registered_linked_lp s.infos).sum = total_partner_linked_lp_tokens s := rfl
  obtain ⟨rem0, hrem0, heq0⟩ := sum_floor_shares (registered_linked_lp s.infos)
    (partner_protocol_fees_token_0 - s.last_observed_fee_amount_token_0)
    (total_partner_linked_lp_tokens s) ht hlpsum
  obtain ⟨rem1, hrem1, heq1⟩ := sum_floor_shares (registered_linked_lp s.infos)
    (partner_protocol_fees_token_1 - s.last_observed_fee_amount_token_1)
    (total_partner_linked_lp_tokens s) ht hlpsum
  rw [registered_linked_lp_length] at hrem0 hrem1
  refine ⟨rfl, rfl, ⟨rem0, hrem0, ?_⟩, ⟨rem1, hrem1, ?_⟩⟩
  · rw [hs0]
    omega
  · rw [hs1]
    omega

/-- A partner table with two registered partners (linked LP 7 and 3) and one
empty slot, with last-observed counters 10 and 20. -/
def partnerTableTwo : PoolPartnerInfos where
  last_observed_fee_amount_token_0 := 10
  last_observed_fee_amount_token_1 := 20
  infos := [
    { partner := 3, lp_token_linked_with_partner := 7
      total_claimed_fee_amount_token_0 := 0, total_claimed_fee_amount_token_1 := 0
      total_earned_fee_amount_token_0 := 11, total_earned_fee_amount_token_1 := 0 },
    { partner := 0, lp_token_linked_with_partner := 99
      total_claimed_fee_amount_token_0 := 0, total_claimed_fee_amount_token_1 := 0
      total_earned_fee_amount_token_0 := 0, total_earned_fee_amount_token_1 := 0 },
    { partner := 4, lp_token_linked_with_partner := 3
      total_claimed_fee_amount_token_0 := 0, total_claimed_fee_amount_token_1 := 0
      total_earned_fee_amount_token_0 := 0, total_earned_fee_amount_token_1 := 5 }]

/-- The table `partnerTableTwo` after updating to counters (31, 45). -/
def partnerTableTwoAfter : PoolPartnerInfos where
  last_observed_fee_amount_token_0 := 31
  last_observed_fee_amount_token_1 := 45
  infos := [
    { partner := 3, lp_token_linked_with_partner := 7
      total_claimed_fee_amount_token_0 := 0, total_claimed_fee_amount_token_1 := 0
      total_earned_fee_amount_token_0 := 25, total_earned_fee_amount_token_1 := 17 },
    { partner := 0, lp_token_linked_with_partner := 99
      total_claimed_fee_amount_token_0 := 0, total_claimed_fee_amount_token_1 := 0
      total_earned_fee_amount_token_0 := 0, total_earned_fee_amount_token_1 := 0 },
    { partner := 4, lp_token_linked_with_partner := 3
      total_claimed_fee_amount_token_0 := 0, total_claimed_fee_amount_token_1 := 0
      total_earned_fee_amount_token_0 := 6, total_earned_fee_amount_token_1 := 12 }]

/-- Witness for `C6`: updating `partnerTableTwo` to counters (31, 45)
distributes deltas 21 and 25 over linked LP (7, 3): earned sums rise by 20
and 24, remainders 1 ≤ 2 partners, and the counters are advanced. -/
theorem update_fee_amounts_conservation_witness :
    total_partner_linked_lp_tokens partnerTableTwo ≠ 0 ∧
    update_fee_amounts partnerTableTwo 31 45 = Except.ok partnerTableTwoAfter ∧
    (partnerTableTwoAfter.last_observed_fee_amount_token_0 = 31 ∧
     partnerTableTwoAfter.last_observed_fee_amount_token_1 = 45 ∧
     (∃ rem0, rem0 ≤ registered_count partnerTableTwo.infos ∧
       total_earned_token_0 partnerTableTwoAfter.infos + rem0 =
         total_earned_token_0 partnerTableTwo.infos +
           (31 - partnerTableTwo.last_observed_fee_amount_token_0)) ∧
     (∃ rem1, rem1 ≤ registered_count partnerTableTwo.infos ∧
       total_earned_token_1 partnerTableTwoAfter.infos + rem1 =
         total_earned_token_1 partnerTableTwo.infos +
           (45 - partnerTableTwo.last_observed_fee_amount_token_1))) :=
  ⟨by decide, by decide,
    update_fee_amounts_conservation partnerTableTwo 31 45 partnerTableTwoAfter
      (by decide) (by decide)⟩

/-- Invariant of the inner snapshot loop for a sole holder of the whole LP
supply `S` at reward slot 0: the loop never fails, keeps the cursor inside
the reward window, accrues exactly `emission * (cursor - start)` above the
starting total, and pins the cursor to the window end once the end is
reached. -/
theorem snapshot_accrue_sole_holder (ri : RewardInfo) (S t0base : Nat) (hS : 0 < S)
    (snaps : List Snapshot) :
    ∀ (last total : Nat) (reached : Bool),
    ri.start_at ≤ last → last ≤ ri.end_rewards_at →
    total = t0base + ri.emission_per_second * (last - ri.start_at) →
    (reached = true → last = ri.end_rewards_at) →
    t0base + ri.emission_per_second * (ri.end_rewards_at - ri.start_at) * S < U64MOD →
    (∀ sn ∈ snaps, sn.reward_calculated_for_lp_amount.getD 0 0 + S < U64MOD) →
    ∃ snaps2 last2 total2 reached2,
      snapshot_accrue ri 0 S S S snaps last total reached =
        Except.ok (snaps2, last2, total2, reached2) ∧
      ri.start_at ≤ last2 ∧ last2 ≤ ri.end_rewards_at ∧
      total2 = t0base + ri.emission_per_second * (last2 - ri.start_at) ∧
      (reached2 = true → last2 = ri.end_rewards_at) := by
  induction snaps with
  | nil =>
    intro last total reached h1 h2 h3 h4 hbig hcovs
    exact ⟨[], last, total, reached, rfl, h1, h2, h3, h4⟩
  | cons sn rest ih =>
    intro last total reached h1 h2 h3 h4 hbig hcovs
    have hcov_sn := hcovs sn (List.mem_cons_self sn rest)
    have hcovs_rest : ∀ s ∈ rest, s.reward_calculated_for_lp_amount.getD 0 0 + S < U64MOD :=
      fun s hs => hcovs s (List.mem_cons_of_mem sn hs)
    by_cases hre : reached = true
    · refine ⟨sn :: rest, last, total, reached, ?_, h1, h2, h3, h4⟩
      unfold snapshot_accrue
      rw [if_pos hre]
    · have hre' : reached = false := by
        cases reached
        · rfl
        · exact absurd rfl hre
      by_cases hts : sn.timestamp < last
      · obtain ⟨s2, l2, t2, r2, heq, k1, k2, k3, k4⟩ :=
          ih last total reached h1 h2 h3 h4 hbig hcovs_rest
        refine ⟨sn :: s2, l2, t2, r2, ?_, k1, k2, k3, k4⟩
        unfold snapshot_accrue
        rw [if_neg hre, if_pos hts]
        rw [except_bind_ok heq]
        rfl
      · -- the snapshot is processed: the segment runs from the cursor to
        -- `min(end_rewards_at, timestamp)`
        have hemul : ri.emission_per_second * (ri.end_rewards_at - ri.start_at) ≤
            ri.emission_per_second * (ri.end_rewards_at - ri.start_at) * S :=
          Nat.le_mul_of_pos_right _ hS
        have hts2 : last ≤ sn.timestamp := Nat.le_of_not_lt hts
        by_cases hend : ri.end_rewards_at < sn.timestamp
        · have hdmul : ri.emission_per_second * (ri.end_rewards_at - last) ≤
              ri.emission_per_second * (ri.end_rewards_at - ri.start_at) :=
            Nat.mul_le_mul_left _ (by omega)
          have hdmul2 : ri.emission_per_second * (ri.end_rewards_at - last) * S ≤
              ri.emission_per_second * (ri.end_rewards_at - ri.start_at) * S :=
            Nat.mul_le_mul_right _ hdmul
          have hc1 : cadd64 (sn.reward_calculated_for_lp_amount.getD 0 0) S =
              some (sn.reward_calculated_for_lp_amount.getD 0 0 + S) := by
            unfold cadd64
            rw [if_pos hcov_sn]
          have hc2 : csub ri.end_rewards_at last = some (ri.end_rewards_at - last) := by
            unfold csub
            rw [if_pos h2]
          have hc3 : cmul64 ri.emission_per_second (ri.end_rewards_at - last) =
              some (ri.emission_per_second * (ri.end_rewards_at - last)) := by
            unfold cmul64
            rw [if_pos (lt_of_le_of_lt ((hdmul.trans hemul).trans (Nat.le_add_left _ _)) hbig)]
          have hc4 : cmul64 (ri.emission_per_second * (ri.end_rewards_at - last)) S =
              some (ri.emission_per_second * (ri.end_rewards_at - last) * S) := by
            unfold cmul64
            rw [if_pos (lt_of_le_of_lt (hdmul2.trans (Nat.le_add_left _ _)) hbig)]
          have hc5 : cdiv (ri.emission_per_second * (ri.end_rewards_at - last) * S) S =
              some (ri.emission_per_second * (ri.end_rewards_at - last)) := by
            unfold cdiv
            rw [if_neg (by omega)]
            rw [Nat.mul_div_cancel _ hS]
          have htot2 : total + ri.emission_per_second * (ri.end_rewards_at - last) =
              t0base + ri.emission_per_second * (ri.end_rewards_at - ri.start_at) := by
            rw [h3]
            have hsplit : ri.emission_per_second * (last - ri.start_at) +
                ri.emission_per_second * (ri.end_rewards_at - last) =
                ri.emission_per_second * (ri.end_rewards_at - ri.start_at) := by
              rw [← Nat.mul_add]
              congr 1
              omega
            omega
          have hc6 : cadd64 total (ri.emission_per_second * (ri.end_rewards_at - last)) =
              some (total + ri.emission_per_second * (ri.end_rewards_at - last)) := by
            unfold cadd64
            rw [if_pos (by
              rw [htot2]
              exact lt_of_le_of_lt (Nat.add_le_add_left hemul _) hbig)]
          obtain ⟨s2, l2, t2, r2, heq, k1, k2, k3, k4⟩ :=
            ih ri.end_rewards_at
              (total + ri.emission_per_second * (ri.end_rewards_at - last)) true
              (by omega) (le_refl _) (by omega) (fun _ => rfl) hbig hcovs_rest
          refine ⟨{ sn with reward_calculated_for_lp_amount := sn.reward_calculated_for_lp_amount.set 0 (sn.reward_calculated_for_lp_amount.getD 0 0 + S) } :: s2, l2, t2, r2, ?_, k1, k2, k3, k4⟩
          unfold snapshot_accrue
          rw [if_neg hre, if_neg hts]
          simp only [if_pos hend, except_bind_ok (toExcept_eq_ok.mpr hc1),
            except_bind_ok (toExcept_eq_ok.mpr hc2), except_bind_ok (toExcept_eq_ok.mpr hc3),
            except_bind_ok (toExcept_eq_ok.mpr hc4), except_bind_ok (toExcept_eq_ok.mpr hc5),
            except_bind_ok (toExcept_eq_ok.mpr hc6), except_bind_ok heq]
          rfl
        · have hts3 : sn.timestamp ≤ ri.end_rewards_at := Nat.le_of_not_lt hend
          have hdmul : ri.emission_per_second * (sn.timestamp - last) ≤
              ri.emission_per_second * (ri.end_rewards_at - ri.start_at) :=
            Nat.mul_le_mul_left _ (by omega)
          have hdmul2 : ri.emission_per_second * (sn.timestamp - last) * S ≤
              ri.emission_per_second * (ri.end_rewards_at - ri.start_at) * S :=
            Nat.mul_le_mul_right _ hdmul
          have hdmulst : ri.emission_per_second * (sn.timestamp - ri.start_at) ≤
              ri.emission_per_second * (ri.end_rewards_at - ri.start_at) :=
            Nat.mul_le_mul_left _ (by omega)
          have hc1 : cadd64 (sn.reward_calculated_for_lp_amount.getD 0 0) S =
              some (sn.reward_calculated_for_lp_amount.getD 0 0 + S) := by
            unfold cadd64
            rw [if_pos hcov_sn]
          have hc2 : csub sn.timestamp last = some (sn.timestamp - last) := by
            unfold csub
            rw [if_pos hts2]
          have hc3 : cmul64 ri.emission_per_second (sn.timestamp - last) =
              some (ri.emission_per_second * (sn.timestamp - last)) := by
            unfold cmul64
            rw [if_pos (lt_of_le_of_lt ((hdmul.trans hemul).trans (Nat.le_add_left _ _)) hbig)]
          have hc4 : cmul64 (ri.emission_per_second * (sn.timestamp - last)) S =
              some (ri.emission_per_second * (sn.timestamp - last) * S) := by
            unfold cmul64
            rw [if_pos (lt_of_le_of_lt (hdmul2.trans (Nat.le_add_left _ _)) hbig)]
          have hc5 : cdiv (ri.emission_per_second * (sn.timestamp - last) * S) S =
              some (ri.emission_per_second * (sn.timestamp - last)) := by
            unfold cdiv
            rw [if_neg (by omega)]
            rw [Nat.mul_div_cancel _ hS]
          have htot2 : total + ri.emission_per_second * (sn.timestamp - last) =
              t0base + ri.emission_per_second * (sn.timestamp - ri.start_at) := by
            rw [h3]
            have hsplit : ri.emission_per_second * (last - ri.start_at) +
                ri.emission_per_second * (sn.timestamp - last) =
                ri.emission_per_second * (sn.timestamp - ri.start_at) := by
              rw [← Nat.mul_add]
              congr 1
              omega
            omega
          have hc6 : cadd64 total (ri.emission_per_second * (sn.timestamp - last)) =
              some (total + ri.emission_per_second * (sn.timestamp - last)) := by
            unfold cadd64
            rw [if_pos (by
              rw [htot2]
              exact lt_of_le_of_lt (Nat.add_le_add_left (hdmulst.trans hemul) t0base) hbig)]
          obtain ⟨s2, l2, t2, r2, heq, k1, k2, k3, k4⟩ :=
            ih sn.timestamp
              (total + ri.emission_per_second * (sn.timestamp - last)) reached
              (by omega) hts3 htot2
              (by rw [hre']; intro hcontra; cases hcontra) hbig hcovs_rest
          refine ⟨{ sn with reward_calculated_for_lp_amount := sn.reward_calculated_for_lp_amount.set 0 (sn.reward_calculated_for_lp_amount.getD 0 0 + S) } :: s2, l2, t2, r2, ?_, k1, k2, k3, k4⟩
          unfold snapshot_accrue
          rw [if_neg hre, if_neg hts]
          simp only [if_neg hend, except_bind_ok (toExcept_eq_ok.mpr hc1),
            except_bind_ok (toExcept_eq_ok.mpr hc2), except_bind_ok (toExcept_eq_ok.mpr hc3),
            except_bind_ok (toExcept_eq_ok.mpr hc4), except_bind_ok (toExcept_eq_ok.mpr hc5),
            except_bind_ok (toExcept_eq_ok.mpr hc6), except_bind_ok heq]
          rfl

/-- `C5`: a single active reward stream at slot 0, a user holding 100% of a
constant LP supply `S` for the whole window with no prior accrual, claiming
at or after `end_rewards_at`, accrues exactly
`emission_per_second * (end_rewards_at - start_at)`. -/
theorem single_stream_full_holder_accrues_exact (u : UserRewardInfo) (S time_now : Nat)
    (urc : GlobalUserLpRecentChange) (g : GlobalRewardInfo) (ri : RewardInfo)
    (hkey : ri.key ≠ 0)
    (hactive : g.active_boosted_reward_info = [ri.key, 0, 0])
    (hsnapsu : urc.lp_snapshots = [])
    (hprior : u.rewards_last_calculated_at ≤ ri.start_at)
    (hwindow : ri.start_at ≤ ri.end_rewards_at)
    (hnow : ri.end_rewards_at ≤ time_now)
    (hS : 0 < S)
    (hmul : u.total_rewards +
      ri.emission_per_second * (ri.end_rewards_at - ri.start_at) * S < U64MOD)
    (hcovs : ∀ sn ∈ g.snapshots,
      sn.reward_calculated_for_lp_amount.getD 0 0 + S < U64MOD)
    (hgcov : g.reward_calculated_for_lp_amount.getD 0 0 + S < U64MOD) :
    ∃ u2 urc2 g2,
      calculate_claimable_rewards u S S urc g ri time_now = Except.ok (u2, urc2, g2) ∧
      u2.total_rewards = u.total_rewards +
        ri.emission_per_second * (ri.end_rewards_at - ri.start_at) := by
  have hidx : g.active_boosted_reward_info.findIdx? (fun r => r == ri.key) = some 0 := by
    rw [hactive]
    simp [List.findIdx?]
  have hlast0 : max ri.start_at u.rewards_last_calculated_at = ri.start_at :=
    Nat.max_eq_left hprior
  have hemul : ri.emission_per_second * (ri.end_rewards_at - ri.start_at) ≤
      ri.emission_per_second * (ri.end_rewards_at - ri.start_at) * S :=
    Nat.le_mul_of_pos_right _ hS
  obtain ⟨s2, l2, t2, r2, heq, k1, k2, k3, k4⟩ :=
    snapshot_accrue_sole_holder ri S u.total_rewards hS g.snapshots
      ri.start_at u.total_rewards false (le_refl _) hwindow (by simp)
      (by intro hcontra; cases hcontra) hmul hcovs
  have hnotlt : ¬ (time_now < ri.start_at) := by omega
  have huser : user_snapshots_accrue ri 0 S S
      (urc.lp_snapshots ++ [⟨S, time_now⟩]) g.snapshots
      (max ri.start_at u.rewards_last_calculated_at) u.total_rewards false =
      Except.ok (s2, l2, t2, r2) := by
    rw [hsnapsu, List.nil_append, hlast0]
    unfold user_snapshots_accrue
    rw [if_neg hnotlt]
    rw [except_bind_ok heq]
    rfl
  unfold calculate_claimable_rewards
  simp only [hidx]
  simp only [except_bind_ok huser]
  by_cases hr2 : r2 = true
  · rw [if_pos hr2]
    refine ⟨_, _, _, rfl, ?_⟩
    simp only
    rw [k3, k4 hr2]
  · rw [if_neg hr2]
    have hmin : min time_now ri.end_rewards_at = ri.end_rewards_at :=
      Nat.min_eq_right hnow
    rw [hmin]
    have hdmul : ri.emission_per_second * (ri.end_rewards_at - l2) ≤
        ri.emission_per_second * (ri.end_rewards_at - ri.start_at) :=
      Nat.mul_le_mul_left _ (by omega)
    have hdmul2 : ri.emission_per_second * (ri.end_rewards_at - l2) * S ≤
        ri.emission_per_second * (ri.end_rewards_at - ri.start_at) * S :=
      Nat.mul_le_mul_right _ hdmul
    have hd1 : csub ri.end_rewards_at l2 = some (ri.end_rewards_at - l2) := by
      unfold csub
      rw [if_pos k2]
    have hd2 : cadd64 (g.reward_calculated_for_lp_amount.getD 0 0) S =
        some (g.reward_calculated_for_lp_amount.getD 0 0 + S) := by
      unfold cadd64
      rw [if_pos hgcov]
    have hd3 : cmul64 ri.emission_per_second (ri.end_rewards_at - l2) =
        some (ri.emission_per_second * (ri.end_rewards_at - l2)) := by
      unfold cmul64
      rw [if_pos (lt_of_le_of_lt ((hdmul.trans hemul).trans (Nat.le_add_left _ _)) hmul)]
    have hd4 : cmul64 (ri.emission_per_second * (ri.end_rewards_at - l2)) S =
        some (ri.emission_per_second * (ri.end_rewards_at - l2) * S) := by
      unfold cmul64
      rw [if_pos (lt_of_le_of_lt (hdmul2.trans (Nat.le_add_left _ _)) hmul)]
    have hd5 : cdiv (ri.emission_per_second * (ri.end_rewards_at - l2) * S) S =
        some (ri.emission_per_second * (ri.end_rewards_at - l2)) := by
      unfold cdiv
      rw [if_neg (by omega)]
      rw [Nat.mul_div_cancel _ hS]
    have htot2 : t2 + ri.emission_per_second * (ri.end_rewards_at - l2) =
        u.total_rewards + ri.emission_per_second * (ri.end_rewards_at - ri.start_at) := by
      rw [k3]
      have hsplit : ri.emission_per_second * (l2 - ri.start_at) +
          ri.emission_per_second * (ri.end_rewards_at - l2) =
          ri.emission_per_second * (ri.end_rewards_at - ri.start_at) := by
        rw [← Nat.mul_add]
        congr 1
        omega
      omega
    have hd6 : cadd64 t2 (ri.emission_per_second * (ri.end_rewards_at - l2)) =
        some (t2 + ri.emission_per_second * (ri.end_rewards_at - l2)) := by
      unfold cadd64
      rw [if_pos (by
        rw [htot2]
        exact lt_of_le_of_lt (Nat.add_le_add_left hemul _) hmul)]
    simp only [except_bind_ok (toExcept_eq_ok.mpr hd1),
      except_bind_ok (toExcept_eq_ok.mpr hd2), except_bind_ok (toExcept_eq_ok.mpr hd3),
      except_bind_ok (toExcept_eq_ok.mpr hd4), except_bind_ok (toExcept_eq_ok.mpr hd5),
      except_bind_ok (toExcept_eq_ok.mpr hd6)]
    refine ⟨_, _, _, rfl, ?_⟩
    simp only
    exact htot2

/-- A reward stream with key 9, window [100, 300], emitting 5 per second. -/
def rewardStreamW : RewardInfo where
  key := 9
  start_at := 100
  end_rewards_at := 300
  emission_per_second := 5

/-- Global reward state for the `C5` witness: one active stream at slot 0
and two mid-window snapshots at constant total LP 500. -/
def rewardGlobalW : GlobalRewardInfo where
  active_boosted_reward_info := [9, 0, 0]
  reward_calculated_for_lp_amount := [0, 0, 0]
  start_times := [some 100, none, none]
  snapshots := [⟨[0, 0, 0], 500, 150⟩, ⟨[0, 0, 0], 500, 260⟩]

/-- User reward info with 7 pre-existing reward units and no prior accrual
cursor. -/
def userRewardW : UserRewardInfo where
  total_claimed := 0
  total_rewards := 7
  rewards_last_calculated_at := 0

/-- Empty user LP-change history for the `C5` witness. -/
def userRecentW : GlobalUserLpRecentChange where
  rewards_calculated_upto := [0, 0, 0]
  lp_snapshots := []

/-- Witness for `C5`: holding all 500 LP through [100, 300] and claiming at
400 accrues exactly `5 * 200 = 1000` units on top of the starting 7. -/
theorem single_stream_full_holder_accrues_exact_witness :
    ∃ u2 urc2 g2,
      calculate_claimable_rewards userRewardW 500 500 userRecentW rewardGlobalW
        rewardStreamW 400 = Except.ok (u2, urc2, g2) ∧
      u2.total_rewards = userRewardW.total_rewards +
        rewardStreamW.emission_per_second *
          (rewardStreamW.end_rewards_at - rewardStreamW.start_at) :=
  single_stream_full_holder_accrues_exact userRewardW 500 400 userRecentW rewardGlobalW
    rewardStreamW (by decide) (by decide) (by decide) (by decide) (by decide) (by decide)
    (by decide) (by decide) (by decide) (by decide)

/-- Shape of a successful blended execution: the realised quantities of the
two tranches, with the invariant tranche run on reserves adjusted by
*subtracting* the oracle tranche's post-fee input from the source side and
*adding* the oracle tranche's output to the destination side. -/
theorem oracle_blended_swap_shape
    (dynFeeRate : Nat → ObservationState → FeeType → Nat → PoolState →
      Bool → Except GammaError Nat)
    (a : SwapArgs) (oracle_price amount_at_oracle amount_with_curve : Nat)
    (res : SwapResult)
    (h : oracle_blended_swap dynFeeRate a oracle_price amount_at_oracle amount_with_curve =
      Except.ok res) :
    ∃ rate fee_o exec_price out_o fee_c out_c,
      dynFeeRate a.block_timestamp a.observation_state FeeType.volatility
        a.amm_config.trade_fee_rate a.pool_state a.is_invoked_by_signed_segmenter =
        Except.ok rate ∧
      ceil_div amount_at_oracle (max rate a.pool_state.min_trade_rate_at_oracle_price)
        FEE_RATE_DENOMINATOR_VALUE = some fee_o ∧
      get_execution_oracle_price oracle_price
        a.pool_state.price_premium_for_swap_at_oracle_price = Except.ok exec_price ∧
      out_o = exec_price * (amount_at_oracle - fee_o) / D9 ∧
      ceil_div amount_with_curve rate FEE_RATE_DENOMINATOR_VALUE = some fee_c ∧
      swap_base_input_without_fees (amount_with_curve - fee_c)
        (a.swap_source_amount - (amount_at_oracle - fee_o))
        (a.swap_destination_amount + out_o) = Except.ok out_c ∧
      res.destination_amount_swapped = out_c + out_o ∧
      res.dynamic_fee = fee_c + fee_o := by
  unfold oracle_blended_swap at h
  obtain ⟨rate, hrate, h⟩ := except_bind_eq_ok h
  obtain ⟨fee_o, hfee_o, h⟩ := except_bind_eq_ok h
  obtain ⟨after_o, hafter_o, h⟩ := except_bind_eq_ok h
  obtain ⟨exec_price, hexec, h⟩ := except_bind_eq_ok h
  obtain ⟨out_o, hout_o, h⟩ := except_bind_eq_ok h
  obtain ⟨new_src, hnew_src, h⟩ := except_bind_eq_ok h
  obtain ⟨new_dst, hnew_dst, h⟩ := except_bind_eq_ok h
  obtain ⟨fee_c, hfee_c, h⟩ := except_bind_eq_ok h
  obtain ⟨after_c, hafter_c, h⟩ := except_bind_eq_ok h
  obtain ⟨out_c, hout_c, h⟩ := except_bind_eq_ok h
  obtain ⟨fee_total, hfee_total, h⟩ := except_bind_eq_ok h
  obtain ⟨rate_total, hrate_total, h⟩ := except_bind_eq_ok h
  obtain ⟨out_total, hout_total, h⟩ := except_bind_eq_ok h
  obtain ⟨protocol_fee, hprot, h⟩ := except_bind_eq_ok h
  obtain ⟨fund_fee, hfund, h⟩ := except_bind_eq_ok h
  obtain ⟨res_src, hres_src, h⟩ := except_bind_eq_ok h
  obtain ⟨res_dst, hres_dst, h⟩ := except_bind_eq_ok h
  simp only [pure, Except.pure, Except.ok.injEq] at h
  subst h
  rw [toExcept_eq_ok] at hfee_o hafter_o hout_o hnew_src hnew_dst hfee_c hafter_c
  rw [toExcept_eq_ok] at hfee_total
  rw [toExcept_eq_ok] at hout_total
  rw [csub_eq_some] at hafter_o hnew_src hafter_c
  rw [cadd128_eq_some] at hnew_dst hfee_total hout_total
  rw [Option.bind_eq_some] at hout_o
  obtain ⟨prod_o, hprod_o, hdiv_o⟩ := hout_o
  rw [cmul128_eq_some] at hprod_o
  rw [cdiv_eq_some] at hdiv_o
  refine ⟨rate, fee_o, exec_price, out_o, fee_c, out_c, hrate, hfee_o, hexec, ?_, hfee_c,
    ?_, ?_, ?_⟩
  · rw [hdiv_o.2, hprod_o.2, hafter_o.2]
  · rw [← hafter_c.2, ← hafter_o.2, ← hnew_src.2, ← hnew_dst.2]
    exact hout_c
  · simp only
    rw [hout_total.2]
  · simp only
    rw [hfee_total.2]

/-- Swap arguments reaching the blended oracle path: fresh oracle (updated
at 1000, called at 1050), matching spot and oracle prices, 10% oracle-trade
cap. -/
def blendedSwapArgs : SwapArgs :=
  { staleSwapArgs with block_timestamp := 1050 }

/-- The result of the blended oracle swap on `blendedSwapArgs`. -/
def blendedSwapResult : SwapResult where
  new_swap_source_amount := 1100000
  new_swap_destination_amount := 901900
  source_amount_swapped := 100000
  destination_amount_swapped := 98100
  dynamic_fee := 301
  protocol_fee := 30
  fund_fee := 30
  dynamic_fee_rate := 3010

/-- Counterexample for `C3`: on `blendedSwapArgs` the oracle tranche is
25641 with fee 77 and output 25589, the invariant tranche is 74359 with fee
224; running the constant-product formula on reserves adjusted as the claim
states — source *increased* by the post-fee input 25564, destination
*decreased* by the output 25589 — yields 65689, so the claim predicts a
total output of 65689 + 25589 = 91278, but the code returns 98100 (it
adjusts the reserves in the opposite directions). -/
theorem oracle_blended_claim_refuted :
    oracle_swap_base_input (curve_swap_base_input lnLinear) (dynamic_fee_rate lnLinear)
      blendedSwapArgs = Except.ok blendedSwapResult ∧
    ¬ oracle_fallback_stale blendedSwapArgs ∧
    get_amount_to_be_swapped_at_oracle_price 100000 1000000 1000000 1000000000
      blendedSwapArgs.pool_state 1000000000 = Except.ok 25641 ∧
    ceil_div 25641 3000 FEE_RATE_DENOMINATOR_VALUE = some 77 ∧
    get_execution_oracle_price 1000000000 1000 = Except.ok 1001000000 ∧
    1001000000 * (25641 - 77) / D9 = 25589 ∧
    ceil_div (100000 - 25641) 3000 FEE_RATE_DENOMINATOR_VALUE = some 224 ∧
    swap_base_input_without_fees (100000 - 25641 - 224) (1000000 + (25641 - 77))
      (1000000 - 25589) = Except.ok 65689 ∧
    blendedSwapResult.destination_amount_swapped ≠ 65689 + 25589 := by
  decide

/-- `C3` amended: in the oracle-blended path of
`OracleBasedSwapCalculator::swap_base_input` (no fallback condition holds),
the invariant tranche's output is computed by the constant-product formula
over reserves adjusted for the oracle tranche in the *opposite* directions
to the claim — the source reserve *decreased* by the oracle tranche's
post-fee input and the destination reserve *increased* by the oracle
tranche's output — and the returned `destination_amount_swapped` is the
oracle-tranche output plus the invariant-tranche output, with the reported
fee equal to the sum of both tranches' fees. -/
theorem oracle_blended_swap_base_input_decomposition
    (curveSwap : SwapArgs → Except GammaError SwapResult)
    (dynFeeRate : Nat → ObservationState → FeeType → Nat → PoolState →
      Bool → Except GammaError Nat)
    (a : SwapArgs) (v : Nat × Nat) (sp op rd amt : Nat) (res : SwapResult)
    (hstale : ¬ oracle_fallback_stale a)
    (hv : vault_amount_without_fee a.pool_state = Except.ok v)
    (hsp : spot_price_calc a.swap_destination_amount a.swap_source_amount = some sp)
    (hop : oracle_price_for_direction
      (if a.swap_source_amount = v.1 then TradeDirection.zeroForOne
        else TradeDirection.oneForZero)
      a.pool_state.oracle_price_token_0_by_token_1 = some op)
    (hrd : get_spot_price_and_oracle_price_rate_difference op sp = Except.ok rd)
    (hacc : rd ≤ a.pool_state.acceptable_price_difference)
    (hamt : get_amount_to_be_swapped_at_oracle_price a.source_amount_to_be_swapped
      a.swap_source_amount a.swap_destination_amount op a.pool_state sp = Except.ok amt)
    (hamt0 : amt ≠ 0)
    (hok : oracle_swap_base_input curveSwap dynFeeRate a = Except.ok res) :
    ∃ rate fee_o exec_price out_o fee_c out_c,
      dynFeeRate a.block_timestamp a.observation_state FeeType.volatility
        a.amm_config.trade_fee_rate a.pool_state a.is_invoked_by_signed_segmenter =
        Except.ok rate ∧
      ceil_div amt (max rate a.pool_state.min_trade_rate_at_oracle_price)
        FEE_RATE_DENOMINATOR_VALUE = some fee_o ∧
      get_execution_oracle_price op
        a.pool_state.price_premium_for_swap_at_oracle_price = Except.ok exec_price ∧
      out_o = exec_price * (amt - fee_o) / D9 ∧
      ceil_div (a.source_amount_to_be_swapped - amt) rate FEE_RATE_DENOMINATOR_VALUE =
        some fee_c ∧
      swap_base_input_without_fees (a.source_amount_to_be_swapped - amt - fee_c)
        (a.swap_source_amount - (amt - fee_o))
        (a.swap_destination_amount + out_o) = Except.ok out_c ∧
      res.destination_amount_swapped = out_c + out_o ∧
      res.dynamic_fee = fee_c + fee_o := by
  have hle : amt ≤ a.source_amount_to_be_swapped := by
    unfold get_amount_to_be_swapped_at_oracle_price at hamt
    obtain ⟨mA, g1, hamt⟩ := except_bind_eq_ok hamt
    obtain ⟨lim, g2, hamt⟩ := except_bind_eq_ok hamt
    obtain ⟨z, g3, hamt⟩ := except_bind_eq_ok hamt
    obtain ⟨zx, g4, hamt⟩ := except_bind_eq_ok hamt
    obtain ⟨yd, g5, hamt⟩ := except_bind_eq_ok hamt
    obtain ⟨den, g6, hamt⟩ := except_bind_eq_ok hamt
    obtain ⟨mB, g7, hamt⟩ := except_bind_eq_ok hamt
    simp only [pure, Except.pure, Except.ok.injEq] at hamt
    rw [← hamt]
    exact min_le_right _ _
  have hsub : csub a.source_amount_to_be_swapped amt =
      some (a.source_amount_to_be_swapped - amt) := by
    unfold csub
    rw [if_pos hle]
  have hred : oracle_swap_base_input curveSwap dynFeeRate a =
      oracle_blended_swap dynFeeRate a op amt (a.source_amount_to_be_swapped - amt) := by
    unfold oracle_swap_base_input
    rw [if_neg hstale]
    simp only [except_bind_ok hv, except_bind_ok (toExcept_eq_ok.mpr hsp),
      except_bind_ok (toExcept_eq_ok.mpr hop), except_bind_ok hrd]
    rw [if_neg (by omega : ¬ rd > a.pool_state.acceptable_price_difference)]
    simp only [except_bind_ok hamt, except_bind_ok (toExcept_eq_ok.mpr hsub)]
    rw [if_neg hamt0]
  rw [hred] at hok
  exact oracle_blended_swap_shape dynFeeRate a op amt
    (a.source_amount_to_be_swapped - amt) res hok

/-- Witness for the amended `C3`: the blended swap on `blendedSwapArgs`
decomposes into the oracle tranche (25641, fee 77, output 25589) and the
invariant tranche run on the code-adjusted reserves, summing to output
98100 and fee 301. -/
theorem oracle_blended_swap_base_input_decomposition_witness :
    ∃ rate fee_o exec_price out_o fee_c out_c,
      dynamic_fee_rate lnLinear blendedSwapArgs.block_timestamp
        blendedSwapArgs.observation_state FeeType.volatility
        blendedSwapArgs.amm_config.trade_fee_rate blendedSwapArgs.pool_state
        blendedSwapArgs.is_invoked_by_signed_segmenter = Except.ok rate ∧
      ceil_div 25641 (max rate blendedSwapArgs.pool_state.min_trade_rate_at_oracle_price)
        FEE_RATE_DENOMINATOR_VALUE = some fee_o ∧
      get_execution_oracle_price 1000000000
        blendedSwapArgs.pool_state.price_premium_for_swap_at_oracle_price =
        Except.ok exec_price ∧
      out_o = exec_price * (25641 - fee_o) / D9 ∧
      ceil_div (blendedSwapArgs.source_amount_to_be_swapped - 25641) rate
        FEE_RATE_DENOMINATOR_VALUE = some fee_c ∧
      swap_base_input_without_fees
        (blendedSwapArgs.source_amount_to_be_swapped - 25641 - fee_c)
        (blendedSwapArgs.swap_source_amount - (25641 - fee_o))
        (blendedSwapArgs.swap_destination_amount + out_o) = Except.ok out_c ∧
      blendedSwapResult.destination_amount_swapped = out_c + out_o ∧
      blendedSwapResult.dynamic_fee = fee_c + fee_o :=
  oracle_blended_swap_base_input_decomposition (curve_swap_base_input lnLinear)
    (dynamic_fee_rate lnLinear) blendedSwapArgs (1000000, 1000000) 1000000000 1000000000
    0 25641 blendedSwapResult (by decide) (by decide) (by decide) (by decide) (by decide)
    (by decide) (by decide) (by decide) (by decide)
